import Mathlib

/-!
# SpdifStreamOut

A shallow embedding of `services/audioflinger/SpdifStreamOut.cpp`: the adapter that wraps
compressed audio into IEC 61937 data bursts and pushes them through the base-class output
stream `AudioStreamOut`.

* Integers of fixed width are natural numbers reduced modulo `2 ^ w` where the source computes
  on them (`uint32_t` sample rates, `size_t` byte counts); `ssize_t` and `status_t` values are
  integers.
* The base class `AudioStreamOut` (the sink) and the burst encoder `SPDIFEncoder` are not
  implemented in this file of the sources.  They are parameters: records of arbitrary
  transition functions on an arbitrary state type.
* Every call that crosses the adapter boundary is appended to a ghost log, so that the number,
  order and arguments of the calls can be stated.
-/

namespace android

/-! ## Constants of `system/audio.h` and `utils/Errors.h` -/

/-- The format code `AUDIO_FORMAT_DEFAULT`. -/
def AUDIO_FORMAT_DEFAULT : Nat := 0
/-- The format code `AUDIO_FORMAT_AC3`. -/
def AUDIO_FORMAT_AC3 : Nat := 0x09000000
/-- The format code `AUDIO_FORMAT_E_AC3`. -/
def AUDIO_FORMAT_E_AC3 : Nat := 0x0A000000
/-- The format code `AUDIO_FORMAT_E_AC3_JOC` (main format E-AC3, sub-format 1). -/
def AUDIO_FORMAT_E_AC3_JOC : Nat := 0x0A000001
/-- The format code `AUDIO_FORMAT_DTS`. -/
def AUDIO_FORMAT_DTS : Nat := 0x0B000000
/-- The format code `AUDIO_FORMAT_DTS_HD`. -/
def AUDIO_FORMAT_DTS_HD : Nat := 0x0C000000
/-- The format code `AUDIO_FORMAT_IEC61937`, the burst wire format. -/
def AUDIO_FORMAT_IEC61937 : Nat := 0x0D000000

/-- The channel mask `AUDIO_CHANNEL_NONE`. -/
def AUDIO_CHANNEL_NONE : Nat := 0x0
/-- The channel mask `AUDIO_CHANNEL_OUT_STEREO` (front left, front right). -/
def AUDIO_CHANNEL_OUT_STEREO : Nat := 0x3
/-- The channel mask `AUDIO_CHANNEL_OUT_7POINT1`. -/
def AUDIO_CHANNEL_OUT_7POINT1 : Nat := 0x63F

/-- The status `BAD_VALUE`, which is `-EINVAL`. -/
def BAD_VALUE : Int := -22

/-! ## Machine integers -/

/-- Number of values of a `uint32_t`. -/
def UINT32_MOD : Nat := 2 ^ 32
/-- Number of values of a `size_t` (64-bit build). -/
def SIZE_MOD : Nat := 2 ^ 64
/-- Largest `ssize_t`. -/
def SSIZE_MAX : Nat := 2 ^ 63 - 1

/-- Conversion of an `ssize_t` to `size_t`: reduction modulo `2 ^ 64`. -/
def toSize (z : Int) : Nat := (z % (SIZE_MOD : Int)).toNat

/-- Conversion of a `size_t` to `ssize_t`: values above `SSIZE_MAX` come out negative. -/
def toSsize (n : Nat) : Int := if n ≤ SSIZE_MAX then (n : Int) else (n : Int) - (SIZE_MOD : Int)

/-! ## Data model -/

/-- The record `struct audio_config`.  The offload information is carried along untouched and
is kept as raw words. -/
structure audio_config where
  sample_rate : Nat
  channel_mask : Nat
  format : Nat
  offload_info : List Nat
  frame_count : Nat
deriving DecidableEq

/-- The record `audio_config_base_t`. -/
structure audio_config_base where
  sample_rate : Nat
  channel_mask : Nat
  format : Nat
deriving DecidableEq

/-- The value `AUDIO_CONFIG_BASE_INITIALIZER`. -/
def AUDIO_CONFIG_BASE_INITIALIZER : audio_config_base :=
  { sample_rate := 0, channel_mask := AUDIO_CHANNEL_NONE, format := AUDIO_FORMAT_DEFAULT }

/-- A call that leaves the adapter, with its arguments (and, for a write, what the sink
returned). A pointer into the burst buffer is its offset from the start of the buffer. -/
inductive Event where
  | sinkOpen (handle devices : Nat) (config : audio_config) (address : String)
  | sinkWrite (offset size : Nat) (ret : Int)
  | sinkFlush
  | sinkStandby
  | encoderReset
  | encoderWrite (numBytes : Nat)
deriving DecidableEq

/-- The base class `AudioStreamOut`, seen from the adapter: four operations on a state `σ`.
`write` takes the offset of the pointer it is handed and the byte count. -/
structure AudioStreamOut (σ : Type) where
  «open» : σ → Nat → Nat → audio_config → String → Int × σ
  write : σ → Nat → Nat → Int × σ
  flush : σ → Int × σ
  standby : σ → Int × σ

/-- What one call of the encoder does, as seen from the adapter: it emits data bursts through
`writeOutput`, reads what each of them returns, and finally returns its own result. -/
inductive EncoderRun (ε : Type) where
  | done (ret : Int) (next : ε)
  | burst (bytes : Nat) (k : Int → EncoderRun ε)

/-- The burst encoder `SPDIFEncoder`, seen from the adapter. -/
structure SPDIFEncoder (ε : Type) where
  reset : ε → ε
  write : ε → Nat → EncoderRun ε

/-- The object `SpdifStreamOut`: the state of its base class, its encoder, its members, and
the ghost log of outgoing calls. -/
structure SpdifStreamOut (σ ε : Type) where
  stream : σ
  mSpdifEncoder : ε
  mApplicationFormat : Nat
  mApplicationSampleRate : Nat
  mApplicationChannelMask : Nat
  mRateMultiplier : Nat
  mHalBufferSize : Nat
  log : List Event

/-! ## Operations -/

/-- The constructor: application properties start at their defaults. The multiplier and the
chunk limit are members of the base class and are given. -/
def SpdifStreamOut.init {σ ε : Type} (stream : σ) (encoder : ε)
    (rateMultiplier halBufferSize : Nat) : SpdifStreamOut σ ε :=
  { stream := stream, mSpdifEncoder := encoder,
    mApplicationFormat := AUDIO_FORMAT_DEFAULT,
    mApplicationSampleRate := 0,
    mApplicationChannelMask := AUDIO_CHANNEL_NONE,
    mRateMultiplier := rateMultiplier, mHalBufferSize := halBufferSize, log := [] }

/-- The `switch` of `open` (source lines 60 to 84): the new rate multiplier together with
`customConfig`, or `none` on the `default` branch. The product on line 64 is a `uint32_t`. -/
def SpdifStreamOut.resolveDeviceConfig (config : audio_config) : Option (Nat × audio_config) :=
  let customConfig := config
  if config.format = AUDIO_FORMAT_E_AC3 ∨ config.format = AUDIO_FORMAT_E_AC3_JOC then
    let mRateMultiplier := 4
    let customConfig := { customConfig with
      sample_rate := (config.sample_rate * mRateMultiplier) % UINT32_MOD,
      channel_mask := AUDIO_CHANNEL_OUT_STEREO }
    some (mRateMultiplier, { customConfig with format := AUDIO_FORMAT_IEC61937 })
  else if config.format = AUDIO_FORMAT_AC3 ∨ config.format = AUDIO_FORMAT_DTS then
    let mRateMultiplier := 1
    let customConfig := { customConfig with
      sample_rate := config.sample_rate,
      channel_mask := AUDIO_CHANNEL_OUT_STEREO }
    some (mRateMultiplier, { customConfig with format := AUDIO_FORMAT_IEC61937 })
  else if config.format = AUDIO_FORMAT_DTS_HD then
    let mRateMultiplier := 1
    let customConfig := { customConfig with
      sample_rate := 192000,
      channel_mask := AUDIO_CHANNEL_OUT_7POINT1 }
    some (mRateMultiplier, { customConfig with format := AUDIO_FORMAT_IEC61937 })
  else
    none

/-- The method `SpdifStreamOut::open`. -/
def SpdifStreamOut.open {σ ε : Type} (sink : AudioStreamOut σ) (self : SpdifStreamOut σ ε)
    (handle devices : Nat) (config : audio_config) (address : String) :
    Int × SpdifStreamOut σ ε :=
  let self := { self with
    mApplicationFormat := config.format,
    mApplicationSampleRate := config.sample_rate,
    mApplicationChannelMask := config.channel_mask }
  match SpdifStreamOut.resolveDeviceConfig config with
  | none => (BAD_VALUE, self)
  | some (mRateMultiplier, customConfig) =>
    let self := { self with mRateMultiplier := mRateMultiplier }
    let r := sink.open self.stream handle devices customConfig address
    (r.1, { self with
      stream := r.2,
      log := self.log ++ [Event.sinkOpen handle devices customConfig address] })

/-- The method `SpdifStreamOut::flush`. -/
def SpdifStreamOut.flush {σ ε : Type} (sink : AudioStreamOut σ) (encoder : SPDIFEncoder ε)
    (self : SpdifStreamOut σ ε) : Int × SpdifStreamOut σ ε :=
  let self := { self with
    mSpdifEncoder := encoder.reset self.mSpdifEncoder,
    log := self.log ++ [Event.encoderReset] }
  let r := sink.flush self.stream
  (r.1, { self with stream := r.2, log := self.log ++ [Event.sinkFlush] })

/-- The method `SpdifStreamOut::standby`. -/
def SpdifStreamOut.standby {σ ε : Type} (sink : AudioStreamOut σ) (encoder : SPDIFEncoder ε)
    (self : SpdifStreamOut σ ε) : Int × SpdifStreamOut σ ε :=
  let self := { self with
    mSpdifEncoder := encoder.reset self.mSpdifEncoder,
    log := self.log ++ [Event.encoderReset] }
  let r := sink.standby self.stream
  (r.1, { self with stream := r.2, log := self.log ++ [Event.sinkStandby] })

/-- The local variables of `writeDataBurst` that live across iterations, with the object. -/
structure BurstLoop (σ ε : Type) where
  self : SpdifStreamOut σ ε
  totalBytes : Nat
  leftBytes : Nat

/-- One pass through the body of the `do ... while` of `writeDataBurst`, up to and excluding
`maxCount--`. The Boolean tells whether a `break` was taken. The variable `size` is a
`size_t`: the value returned by the sink is converted to it before the test `size < 0`. -/
def SpdifStreamOut.writeDataBurstBody {σ ε : Type} (sink : AudioStreamOut σ)
    (s : BurstLoop σ ε) : Bool × BurstLoop σ ε :=
  let writeBytes :=
    if s.leftBytes > s.self.mHalBufferSize then s.self.mHalBufferSize else s.leftBytes
  if writeBytes ≤ 0 then
    (true, s)
  else
    let r := sink.write s.self.stream s.totalBytes writeBytes
    let size : Nat := toSize r.1
    let self := { s.self with
      stream := r.2,
      log := s.self.log ++ [Event.sinkWrite s.totalBytes writeBytes r.1] }
    if size < 0 then
      (true, { s with self := self })
    else
      (false, { self := self,
                totalBytes := (s.totalBytes + size) % SIZE_MOD,
                leftBytes := (s.leftBytes + SIZE_MOD - size) % SIZE_MOD })

/-- The `do ... while` of `writeDataBurst`, entered with the given value of `maxCount`. -/
def SpdifStreamOut.writeDataBurstLoop {σ ε : Type} (sink : AudioStreamOut σ) :
    Nat → BurstLoop σ ε → BurstLoop σ ε
  | 0, s => (SpdifStreamOut.writeDataBurstBody sink s).2
  | maxCount + 1, s =>
    let r := SpdifStreamOut.writeDataBurstBody sink s
    if r.1 then r.2
    else if maxCount > 0 ∧ r.2.leftBytes > 0 then
      SpdifStreamOut.writeDataBurstLoop sink maxCount r.2
    else r.2

/-- The method `SpdifStreamOut::writeDataBurst`. The buffer is addressed by offsets. -/
def SpdifStreamOut.writeDataBurst {σ ε : Type} (sink : AudioStreamOut σ)
    (self : SpdifStreamOut σ ε) (bytes : Nat) : Int × SpdifStreamOut σ ε :=
  let r := SpdifStreamOut.writeDataBurstLoop sink 10
    { self := self, totalBytes := 0, leftBytes := bytes }
  (toSsize r.totalBytes, r.self)

/-- Runs one call of the encoder, every emitted burst going to `writeDataBurst`. -/
def SpdifStreamOut.runEncoder {σ ε : Type} (sink : AudioStreamOut σ) :
    EncoderRun ε → SpdifStreamOut σ ε → Int × SpdifStreamOut σ ε
  | EncoderRun.done ret next, self => (ret, { self with mSpdifEncoder := next })
  | EncoderRun.burst bytes k, self =>
    let r := SpdifStreamOut.writeDataBurst sink self bytes
    SpdifStreamOut.runEncoder sink (k r.1) r.2

/-- The method `SpdifStreamOut::write`. -/
def SpdifStreamOut.write {σ ε : Type} (sink : AudioStreamOut σ) (encoder : SPDIFEncoder ε)
    (self : SpdifStreamOut σ ε) (numBytes : Nat) : Int × SpdifStreamOut σ ε :=
  SpdifStreamOut.runEncoder sink (encoder.write self.mSpdifEncoder numBytes)
    { self with log := self.log ++ [Event.encoderWrite numBytes] }

/-- The method `SpdifStreamOut::getAudioProperties`. -/
def SpdifStreamOut.getAudioProperties {σ ε : Type} (self : SpdifStreamOut σ ε) :
    audio_config_base :=
  let result := AUDIO_CONFIG_BASE_INITIALIZER
  let result := { result with sample_rate := self.mApplicationSampleRate }
  let result := { result with channel_mask := self.mApplicationChannelMask }
  let result := { result with format := self.mApplicationFormat }
  result

/-! ## Vocabulary of the properties -/

/-- The formats the claims call supported: E-AC3, E-AC3-JOC, AC3, DTS and DTS-HD. -/
def SpdifStreamOut.isSupported (format : Nat) : Prop :=
  format = AUDIO_FORMAT_E_AC3 ∨ format = AUDIO_FORMAT_E_AC3_JOC ∨ format = AUDIO_FORMAT_AC3 ∨
    format = AUDIO_FORMAT_DTS ∨ format = AUDIO_FORMAT_DTS_HD

instance SpdifStreamOut.isSupported.decidable (format : Nat) :
    Decidable (SpdifStreamOut.isSupported format) := by
  unfold SpdifStreamOut.isSupported
  infer_instance

/-- The calls logged between two states of the object. -/
def SpdifStreamOut.eventsSince {σ ε : Type} (before after : SpdifStreamOut σ ε) : List Event :=
  after.log.drop before.log.length

/-- Whether a logged call is a write of the sink. -/
def Event.isSinkWrite : Event → Bool
  | Event.sinkWrite _ _ _ => true
  | _ => false

/-- The sum of what the sink returned over the logged writes. -/
def acceptedSum : List Event → Int
  | [] => 0
  | Event.sinkWrite _ _ ret :: rest => ret + acceptedSum rest
  | _ :: rest => acceptedSum rest

/-- A sink whose write accepts between 0 and the number of bytes offered, on every call. -/
def AudioStreamOut.WellBehaved {σ : Type} (sink : AudioStreamOut σ) : Prop :=
  ∀ (s : σ) (offset size : Nat), 0 ≤ (sink.write s offset size).1 ∧
    (sink.write s offset size).1 ≤ (size : Int)

/-! ## Sample collaborators, for evaluating the operations on concrete inputs -/

/-- A sink that counts its calls, whose open returns `status`, whose write accepts
`min size cap` bytes, and whose flush and standby return 0. -/
def sampleSink (status : Int) (cap : Nat) : AudioStreamOut Nat :=
  { «open» := fun s _ _ _ _ => (status, s + 1),
    write := fun s _ size => ((min size cap : Nat), s + 1),
    flush := fun s => (0, s + 1),
    standby := fun s => (0, s + 1) }

/-- A sink whose write fails with `err` on every call. -/
def failingSink (err : Int) : AudioStreamOut Nat :=
  { «open» := fun s _ _ _ _ => (0, s + 1),
    write := fun s _ _ => (err, s + 1),
    flush := fun s => (0, s + 1),
    standby := fun s => (0, s + 1) }

/-- An encoder whose state is its partial-frame residue; reset empties it. It emits no burst. -/
def sampleEncoder : SPDIFEncoder (List Nat) :=
  { reset := fun _ => [],
    write := fun e numBytes => EncoderRun.done numBytes (e ++ [numBytes]) }

/-- A freshly constructed object over the sample collaborators, with chunk limit `hal`. -/
def sampleStream (hal : Nat) : SpdifStreamOut Nat (List Nat) :=
  SpdifStreamOut.init 0 [] 1 hal

/-- An application config with the given format, rate and channel mask. -/
def sampleConfig (format rate mask : Nat) : audio_config :=
  { sample_rate := rate, channel_mask := mask, format := format,
    offload_info := [], frame_count := 0 }

/-! ## Sequences of operations, traces and delivered bytes -/

/-- A call a client may make on an adapter that has been opened. -/
inductive Operation where
  | write (numBytes : Nat)
  | writeDataBurst (bytes : Nat)
  | flush
  | standby
  | getAudioProperties

/-- The object after one operation (`getAudioProperties` is a `const` method). -/
def SpdifStreamOut.applyOperation {σ ε : Type} (sink : AudioStreamOut σ)
    (encoder : SPDIFEncoder ε) (self : SpdifStreamOut σ ε) : Operation → SpdifStreamOut σ ε
  | Operation.write numBytes => (SpdifStreamOut.write sink encoder self numBytes).2
  | Operation.writeDataBurst bytes => (SpdifStreamOut.writeDataBurst sink self bytes).2
  | Operation.flush => (SpdifStreamOut.flush sink encoder self).2
  | Operation.standby => (SpdifStreamOut.standby sink encoder self).2
  | Operation.getAudioProperties => self

/-- The object after a sequence of operations, made in the order of the list. -/
def SpdifStreamOut.applyOperations {σ ε : Type} (sink : AudioStreamOut σ)
    (encoder : SPDIFEncoder ε) : List Operation → SpdifStreamOut σ ε → SpdifStreamOut σ ε
  | [], self => self
  | op :: rest, self =>
    SpdifStreamOut.applyOperations sink encoder rest
      (SpdifStreamOut.applyOperation sink encoder self op)

/-- Two states of the object that agree on every member but the base-class state and the
log. -/
def SpdifStreamOut.sameMembers {σ ε : Type} (a b : SpdifStreamOut σ ε) : Prop :=
  a.mSpdifEncoder = b.mSpdifEncoder ∧ a.mApplicationFormat = b.mApplicationFormat ∧
    a.mApplicationSampleRate = b.mApplicationSampleRate ∧
    a.mApplicationChannelMask = b.mApplicationChannelMask ∧
    a.mRateMultiplier = b.mRateMultiplier ∧ a.mHalBufferSize = b.mHalBufferSize

/-- The bytes of `buffer` that the sink accepted, in call order: for every logged write, the
first `ret` bytes from the offset the write was handed. -/
def acceptedBytes {α : Type} (buffer : List α) : List Event → List α
  | [] => []
  | Event.sinkWrite offset _ ret :: rest =>
    (buffer.drop offset).take ret.toNat ++ acceptedBytes buffer rest
  | _ :: rest => acceptedBytes buffer rest

/-- A sink whose write accepts every byte offered, on every call. -/
def AudioStreamOut.AcceptsAll {σ : Type} (sink : AudioStreamOut σ) : Prop :=
  ∀ (s : σ) (offset size : Nat), (sink.write s offset size).1 = (size : Int)

/-- The shape of the writes logged by the loop entered with `total` bytes accepted and `left`
bytes left, over a well-behaved sink with chunk limit `hal`: every write starts at the current
total, offers the minimum of what is left and the limit, which is positive, and is answered
with between 0 and the offered count. -/
def burstTrace (hal : Nat) : Nat → Nat → List Event → Prop
  | _, _, [] => True
  | total, left, Event.sinkWrite offset size ret :: rest =>
    offset = total ∧ size = min left hal ∧ 0 < size ∧ 0 ≤ ret ∧ ret ≤ (size : Int) ∧
      burstTrace hal (total + ret.toNat) (left - ret.toNat) rest
  | _, _, _ :: _ => False

/-- A sink that counts its calls and whose write accepts every byte offered. -/
def acceptingSink : AudioStreamOut Nat :=
  { «open» := fun s _ _ _ _ => (0, s + 1),
    write := fun s _ size => ((size : Nat), s + 1),
    flush := fun s => (0, s + 1),
    standby := fun s => (0, s + 1) }

/-- An encoder that emits one burst of 8 bytes for every write and keeps what the burst
writer returned as its residue. -/
def burstingEncoder : SPDIFEncoder (List Nat) :=
  { reset := fun _ => [],
    write := fun e numBytes =>
      EncoderRun.burst 8 (fun r => EncoderRun.done numBytes (e ++ [r.toNat])) }

/-! ## Lemmas on `open` -/

theorem SpdifStreamOut.resolveDeviceConfig_isSome_iff (config : audio_config) :
    (SpdifStreamOut.resolveDeviceConfig config).isSome = true ↔
      SpdifStreamOut.isSupported config.format := by
  unfold SpdifStreamOut.resolveDeviceConfig SpdifStreamOut.isSupported
  by_cases h1 : config.format = AUDIO_FORMAT_E_AC3 ∨ config.format = AUDIO_FORMAT_E_AC3_JOC
  · simp only [h1, if_true, Option.isSome_some, true_iff]
    tauto
  · by_cases h2 : config.format = AUDIO_FORMAT_AC3 ∨ config.format = AUDIO_FORMAT_DTS
    · simp only [h1, h2, if_true, if_false, Option.isSome_some, true_iff]
      tauto
    · by_cases h3 : config.format = AUDIO_FORMAT_DTS_HD
      · simp only [h1, h2, h3, if_true, if_false, Option.isSome_some, true_iff]
        tauto
      · simp only [h1, h2, h3, if_false, Option.isSome_none]
        constructor
        · intro h; cases h
        · intro h; exfalso; tauto

theorem SpdifStreamOut.open_of_none {σ ε : Type} (sink : AudioStreamOut σ)
    (self : SpdifStreamOut σ ε) (handle devices : Nat) (config : audio_config)
    (address : String) (h : SpdifStreamOut.resolveDeviceConfig config = none) :
    SpdifStreamOut.open sink self handle devices config address =
      (BAD_VALUE, { self with
        mApplicationFormat := config.format,
        mApplicationSampleRate := config.sample_rate,
        mApplicationChannelMask := config.channel_mask }) := by
  simp only [SpdifStreamOut.open, h]

theorem SpdifStreamOut.open_of_some {σ ε : Type} (sink : AudioStreamOut σ)
    (self : SpdifStreamOut σ ε) (handle devices : Nat) (config : audio_config)
    (address : String) (m : Nat) (c : audio_config)
    (h : SpdifStreamOut.resolveDeviceConfig config = some (m, c)) :
    SpdifStreamOut.open sink self handle devices config address =
      ((sink.open self.stream handle devices c address).1, { self with
        mApplicationFormat := config.format,
        mApplicationSampleRate := config.sample_rate,
        mApplicationChannelMask := config.channel_mask,
        mRateMultiplier := m,
        stream := (sink.open self.stream handle devices c address).2,
        log := self.log ++ [Event.sinkOpen handle devices c address] }) := by
  simp only [SpdifStreamOut.open, h]

theorem SpdifStreamOut.eventsSince_append {σ ε : Type} (a b : SpdifStreamOut σ ε)
    (l : List Event) (h : b.log = a.log ++ l) : SpdifStreamOut.eventsSince a b = l := by
  simp [SpdifStreamOut.eventsSince, h]

/-! ## The format policy of `open` -/

/-- C1, as amended: for every requested sample rate r and every requested channel mask, `open`
with format E-AC3 or E-AC3-JOC sets the rate multiplier to 4 and hands the sink one open call
whose config has sample rate (r x 4) mod 2^32 (which is r x 4 whenever r < 2^30), channel mask
stereo and format IEC61937; with format AC3 or DTS it sets the multiplier to 1 and hands the
sink a config with sample rate r, channel mask stereo and format IEC61937. -/
theorem SpdifStreamOut.open_extended_and_basic {σ ε : Type} (sink : AudioStreamOut σ)
    (self : SpdifStreamOut σ ε) (handle devices : Nat) (config : audio_config)
    (address : String) :
    ((config.format = AUDIO_FORMAT_E_AC3 ∨ config.format = AUDIO_FORMAT_E_AC3_JOC) →
      (SpdifStreamOut.open sink self handle devices config address).2.mRateMultiplier = 4 ∧
      SpdifStreamOut.eventsSince self
          (SpdifStreamOut.open sink self handle devices config address).2 =
        [Event.sinkOpen handle devices
          { config with
            sample_rate := (config.sample_rate * 4) % 2 ^ 32,
            channel_mask := AUDIO_CHANNEL_OUT_STEREO,
            format := AUDIO_FORMAT_IEC61937 } address] ∧
      (config.sample_rate < 2 ^ 30 →
        (config.sample_rate * 4) % 2 ^ 32 = config.sample_rate * 4)) ∧
    ((config.format = AUDIO_FORMAT_AC3 ∨ config.format = AUDIO_FORMAT_DTS) →
      (SpdifStreamOut.open sink self handle devices config address).2.mRateMultiplier = 1 ∧
      SpdifStreamOut.eventsSince self
          (SpdifStreamOut.open sink self handle devices config address).2 =
        [Event.sinkOpen handle devices
          { config with
            sample_rate := config.sample_rate,
            channel_mask := AUDIO_CHANNEL_OUT_STEREO,
            format := AUDIO_FORMAT_IEC61937 } address]) := by
  constructor
  · intro hf
    have hr : SpdifStreamOut.resolveDeviceConfig config = some (4,
        { config with
          sample_rate := (config.sample_rate * 4) % 2 ^ 32,
          channel_mask := AUDIO_CHANNEL_OUT_STEREO,
          format := AUDIO_FORMAT_IEC61937 }) := by
      simp only [SpdifStreamOut.resolveDeviceConfig, hf, if_true, UINT32_MOD]
    rw [SpdifStreamOut.open_of_some sink self handle devices config address _ _ hr]
    refine ⟨rfl, SpdifStreamOut.eventsSince_append _ _ _ rfl, ?_⟩
    intro hlt
    apply Nat.mod_eq_of_lt
    omega
  · intro hf
    have hne : ¬ (config.format = AUDIO_FORMAT_E_AC3 ∨
        config.format = AUDIO_FORMAT_E_AC3_JOC) := by
      rcases hf with h | h <;> rw [h] <;> decide
    have hr : SpdifStreamOut.resolveDeviceConfig config = some (1,
        { config with
          sample_rate := config.sample_rate,
          channel_mask := AUDIO_CHANNEL_OUT_STEREO,
          format := AUDIO_FORMAT_IEC61937 }) := by
      simp only [SpdifStreamOut.resolveDeviceConfig, hne, hf, if_true, if_false]
    rw [SpdifStreamOut.open_of_some sink self handle devices config address _ _ hr]
    exact ⟨rfl, SpdifStreamOut.eventsSince_append _ _ _ rfl⟩

/-- C1, the claim as stated fails: E-AC3 requested at 2^30 Hz reaches the sink with sample
rate 0, which is not 2^30 x 4. -/
theorem SpdifStreamOut.open_e_ac3_rate_wraps :
    SpdifStreamOut.eventsSince (sampleStream 4096)
        (SpdifStreamOut.open (sampleSink 0 4096) (sampleStream 4096) 1 2
          (sampleConfig AUDIO_FORMAT_E_AC3 1073741824 AUDIO_CHANNEL_OUT_STEREO) "0").2 =
      [Event.sinkOpen 1 2
        (sampleConfig AUDIO_FORMAT_IEC61937 0 AUDIO_CHANNEL_OUT_STEREO) "0"] ∧
    (sampleConfig AUDIO_FORMAT_IEC61937 0 AUDIO_CHANNEL_OUT_STEREO).sample_rate ≠
      1073741824 * 4 := by
  constructor
  · rfl
  · decide

/-- C2: for every requested sample rate and every requested channel mask, `open` with format
DTS-HD sets the rate multiplier to 1 and hands the sink one open call whose config has sample
rate exactly 192000, channel mask 7.1 and format IEC61937; two requests that differ only in
the sample rate resolve to the same device config. -/
theorem SpdifStreamOut.open_dts_hd {σ ε : Type} (sink : AudioStreamOut σ)
    (self : SpdifStreamOut σ ε) (handle devices : Nat) (config : audio_config)
    (address : String) (hf : config.format = AUDIO_FORMAT_DTS_HD) :
    (SpdifStreamOut.open sink self handle devices config address).2.mRateMultiplier = 1 ∧
    SpdifStreamOut.eventsSince self
        (SpdifStreamOut.open sink self handle devices config address).2 =
      [Event.sinkOpen handle devices
        { config with
          sample_rate := 192000,
          channel_mask := AUDIO_CHANNEL_OUT_7POINT1,
          format := AUDIO_FORMAT_IEC61937 } address] ∧
    ∀ rate : Nat,
      SpdifStreamOut.resolveDeviceConfig { config with sample_rate := rate } =
        SpdifStreamOut.resolveDeviceConfig config := by
  have h1 : ¬ (AUDIO_FORMAT_DTS_HD = AUDIO_FORMAT_E_AC3 ∨
      AUDIO_FORMAT_DTS_HD = AUDIO_FORMAT_E_AC3_JOC) := by decide
  have h2 : ¬ (AUDIO_FORMAT_DTS_HD = AUDIO_FORMAT_AC3 ∨
      AUDIO_FORMAT_DTS_HD = AUDIO_FORMAT_DTS) := by decide
  have hr : SpdifStreamOut.resolveDeviceConfig config = some (1,
      { config with
        sample_rate := 192000,
        channel_mask := AUDIO_CHANNEL_OUT_7POINT1,
        format := AUDIO_FORMAT_IEC61937 }) := by
    simp only [SpdifStreamOut.resolveDeviceConfig, hf, h1, h2, if_true, if_false]
  rw [SpdifStreamOut.open_of_some sink self handle devices config address _ _ hr]
  refine ⟨rfl, SpdifStreamOut.eventsSince_append _ _ _ rfl, ?_⟩
  intro rate
  simp only [SpdifStreamOut.resolveDeviceConfig, hf, h1, h2, if_true, if_false]

/-- C2 at a concrete input: DTS-HD requested at 44100 Hz, stereo. -/
theorem SpdifStreamOut.open_dts_hd_witness :
    (SpdifStreamOut.open (sampleSink 0 4096) (sampleStream 4096) 1 2
        (sampleConfig AUDIO_FORMAT_DTS_HD 44100 AUDIO_CHANNEL_OUT_STEREO)
        "0").2.mRateMultiplier = 1 ∧
    SpdifStreamOut.eventsSince (sampleStream 4096)
        (SpdifStreamOut.open (sampleSink 0 4096) (sampleStream 4096) 1 2
          (sampleConfig AUDIO_FORMAT_DTS_HD 44100 AUDIO_CHANNEL_OUT_STEREO) "0").2 =
      [Event.sinkOpen 1 2
        (sampleConfig AUDIO_FORMAT_IEC61937 192000 AUDIO_CHANNEL_OUT_7POINT1) "0"] :=
  ⟨(SpdifStreamOut.open_dts_hd (sampleSink 0 4096) (sampleStream 4096) 1 2
      (sampleConfig AUDIO_FORMAT_DTS_HD 44100 AUDIO_CHANNEL_OUT_STEREO) "0" rfl).1,
   (SpdifStreamOut.open_dts_hd (sampleSink 0 4096) (sampleStream 4096) 1 2
      (sampleConfig AUDIO_FORMAT_DTS_HD 44100 AUDIO_CHANNEL_OUT_STEREO) "0" rfl).2.1⟩

/-- C1 at the input of the spec: E-AC3-JOC requested at 48000 Hz resolves to rate 192000,
stereo, IEC61937, with multiplier 4. -/
theorem SpdifStreamOut.open_e_ac3_joc_48000 :
    (SpdifStreamOut.open (sampleSink 0 4096) (sampleStream 4096) 1 2
        (sampleConfig AUDIO_FORMAT_E_AC3_JOC 48000 AUDIO_CHANNEL_OUT_7POINT1)
        "0").2.mRateMultiplier = 4 ∧
    SpdifStreamOut.eventsSince (sampleStream 4096)
        (SpdifStreamOut.open (sampleSink 0 4096) (sampleStream 4096) 1 2
          (sampleConfig AUDIO_FORMAT_E_AC3_JOC 48000 AUDIO_CHANNEL_OUT_7POINT1) "0").2 =
      [Event.sinkOpen 1 2
        (sampleConfig AUDIO_FORMAT_IEC61937 192000 AUDIO_CHANNEL_OUT_STEREO) "0"] :=
  ⟨((SpdifStreamOut.open_extended_and_basic (sampleSink 0 4096) (sampleStream 4096) 1 2
      (sampleConfig AUDIO_FORMAT_E_AC3_JOC 48000 AUDIO_CHANNEL_OUT_7POINT1) "0").1
      (Or.inr rfl)).1,
   ((SpdifStreamOut.open_extended_and_basic (sampleSink 0 4096) (sampleStream 4096) 1 2
      (sampleConfig AUDIO_FORMAT_E_AC3_JOC 48000 AUDIO_CHANNEL_OUT_7POINT1) "0").1
      (Or.inr rfl)).2.1⟩

/-- C3: for every config, `open` returns BAD_VALUE without having called the sink (no call is
logged and the state of the sink is untouched) if and only if the format is not one of E-AC3,
E-AC3-JOC, AC3, DTS, DTS-HD; and for an unsupported format it returns BAD_VALUE, logs no call
and leaves the sink as it was. -/
theorem SpdifStreamOut.open_bad_value_iff_unsupported {σ ε : Type} (sink : AudioStreamOut σ)
    (self : SpdifStreamOut σ ε) (handle devices : Nat) (config : audio_config)
    (address : String) :
    (((SpdifStreamOut.open sink self handle devices config address).1 = BAD_VALUE ∧
        SpdifStreamOut.eventsSince self
          (SpdifStreamOut.open sink self handle devices config address).2 = []) ↔
      ¬ SpdifStreamOut.isSupported config.format) ∧
    (¬ SpdifStreamOut.isSupported config.format →
      (SpdifStreamOut.open sink self handle devices config address).1 = BAD_VALUE ∧
      (SpdifStreamOut.open sink self handle devices config address).2.log = self.log ∧
      (SpdifStreamOut.open sink self handle devices config address).2.stream = self.stream) := by
  have hiff := SpdifStreamOut.resolveDeviceConfig_isSome_iff config
  cases hr : SpdifStreamOut.resolveDeviceConfig config with
  | none =>
    have hns : ¬ SpdifStreamOut.isSupported config.format := by
      intro hs
      have := hiff.2 hs
      rw [hr] at this
      cases this
    rw [SpdifStreamOut.open_of_none sink self handle devices config address hr]
    refine ⟨⟨fun _ => hns, fun _ => ⟨rfl, ?_⟩⟩, fun _ => ⟨rfl, rfl, rfl⟩⟩
    exact SpdifStreamOut.eventsSince_append _ _ [] (by simp)
  | some mc =>
    obtain ⟨m, c⟩ := mc
    have hs : SpdifStreamOut.isSupported config.format := hiff.1 (by rw [hr]; rfl)
    rw [SpdifStreamOut.open_of_some sink self handle devices config address m c hr]
    refine ⟨⟨fun h => ?_, fun h => absurd hs h⟩, fun h => absurd hs h⟩
    have he := SpdifStreamOut.eventsSince_append self
      { self with
        mApplicationFormat := config.format,
        mApplicationSampleRate := config.sample_rate,
        mApplicationChannelMask := config.channel_mask,
        mRateMultiplier := m,
        stream := (sink.open self.stream handle devices c address).2,
        log := self.log ++ [Event.sinkOpen handle devices c address] }
      [Event.sinkOpen handle devices c address] rfl
    rw [he] at h
    exact absurd h.2 (by simp)

/-- C4: for every config with a supported format and every status s that the sink returns
from its open, `open` calls the sink exactly once, on the state the sink was in, with the
handle, devices and address of the caller and with the resolved device config, and returns
exactly s. -/
theorem SpdifStreamOut.open_forwards_to_sink {σ ε : Type} (sink : AudioStreamOut σ)
    (self : SpdifStreamOut σ ε) (handle devices : Nat) (config : audio_config)
    (address : String) (hs : SpdifStreamOut.isSupported config.format) :
    ∃ (m : Nat) (c : audio_config),
      SpdifStreamOut.resolveDeviceConfig config = some (m, c) ∧
      SpdifStreamOut.eventsSince self
          (SpdifStreamOut.open sink self handle devices config address).2 =
        [Event.sinkOpen handle devices c address] ∧
      (SpdifStreamOut.open sink self handle devices config address).2.stream =
        (sink.open self.stream handle devices c address).2 ∧
      ∀ s : Int, (sink.open self.stream handle devices c address).1 = s →
        (SpdifStreamOut.open sink self handle devices config address).1 = s := by
  have hsome := (SpdifStreamOut.resolveDeviceConfig_isSome_iff config).2 hs
  cases hr : SpdifStreamOut.resolveDeviceConfig config with
  | none => rw [hr] at hsome; cases hsome
  | some mc =>
    obtain ⟨m, c⟩ := mc
    refine ⟨m, c, rfl, ?_⟩
    rw [SpdifStreamOut.open_of_some sink self handle devices config address m c hr]
    exact ⟨SpdifStreamOut.eventsSince_append _ _ _ rfl, rfl, fun s h => h⟩

/-- C4 at a concrete input: AC3 at 48000 Hz over a sink whose open fails with -19. -/
theorem SpdifStreamOut.open_forwards_to_sink_witness :
    SpdifStreamOut.isSupported
      (sampleConfig AUDIO_FORMAT_AC3 48000 AUDIO_CHANNEL_OUT_STEREO).format ∧
    ∃ (m : Nat) (c : audio_config),
      SpdifStreamOut.resolveDeviceConfig
        (sampleConfig AUDIO_FORMAT_AC3 48000 AUDIO_CHANNEL_OUT_STEREO) = some (m, c) ∧
      SpdifStreamOut.eventsSince (sampleStream 4096)
          (SpdifStreamOut.open (sampleSink (-19) 4096) (sampleStream 4096) 7 2
            (sampleConfig AUDIO_FORMAT_AC3 48000 AUDIO_CHANNEL_OUT_STEREO) "hdmi").2 =
        [Event.sinkOpen 7 2 c "hdmi"] ∧
      (SpdifStreamOut.open (sampleSink (-19) 4096) (sampleStream 4096) 7 2
          (sampleConfig AUDIO_FORMAT_AC3 48000 AUDIO_CHANNEL_OUT_STEREO) "hdmi").2.stream =
        ((sampleSink (-19) 4096).open (sampleStream 4096).stream 7 2 c "hdmi").2 ∧
      ∀ s : Int, ((sampleSink (-19) 4096).open (sampleStream 4096).stream 7 2 c "hdmi").1 = s →
        (SpdifStreamOut.open (sampleSink (-19) 4096) (sampleStream 4096) 7 2
          (sampleConfig AUDIO_FORMAT_AC3 48000 AUDIO_CHANNEL_OUT_STEREO) "hdmi").1 = s :=
  ⟨by decide,
   SpdifStreamOut.open_forwards_to_sink (sampleSink (-19) 4096) (sampleStream 4096) 7 2
    (sampleConfig AUDIO_FORMAT_AC3 48000 AUDIO_CHANNEL_OUT_STEREO) "hdmi" (by decide)⟩

/-- C5: for every config with a supported format, `getAudioProperties` called after
`open(config)` returns exactly the format, sample rate and channel mask of the config,
whatever the sink did and returned in its open. -/
theorem SpdifStreamOut.getAudioProperties_after_open {σ ε : Type} (sink : AudioStreamOut σ)
    (self : SpdifStreamOut σ ε) (handle devices : Nat) (config : audio_config)
    (address : String) (hs : SpdifStreamOut.isSupported config.format) :
    SpdifStreamOut.getAudioProperties
        (SpdifStreamOut.open sink self handle devices config address).2 =
      { sample_rate := config.sample_rate,
        channel_mask := config.channel_mask,
        format := config.format } := by
  have hsome := (SpdifStreamOut.resolveDeviceConfig_isSome_iff config).2 hs
  cases hr : SpdifStreamOut.resolveDeviceConfig config with
  | none => rw [hr] at hsome; cases hsome
  | some mc =>
    obtain ⟨m, c⟩ := mc
    rw [SpdifStreamOut.open_of_some sink self handle devices config address m c hr]
    rfl

/-- C5 at the inputs of the spec: after AC3 / 48000 / stereo the query returns AC3 / 48000 /
stereo; after E-AC3 at 48000 Hz it returns rate 48000 although the sink was opened at
192000. -/
theorem SpdifStreamOut.getAudioProperties_after_open_witness :
    SpdifStreamOut.getAudioProperties
        (SpdifStreamOut.open (sampleSink 0 4096) (sampleStream 4096) 1 2
          (sampleConfig AUDIO_FORMAT_AC3 48000 AUDIO_CHANNEL_OUT_STEREO) "0").2 =
      { sample_rate := 48000, channel_mask := AUDIO_CHANNEL_OUT_STEREO,
        format := AUDIO_FORMAT_AC3 } ∧
    SpdifStreamOut.getAudioProperties
        (SpdifStreamOut.open (sampleSink (-19) 4096) (sampleStream 4096) 1 2
          (sampleConfig AUDIO_FORMAT_E_AC3 48000 AUDIO_CHANNEL_OUT_STEREO) "0").2 =
      { sample_rate := 48000, channel_mask := AUDIO_CHANNEL_OUT_STEREO,
        format := AUDIO_FORMAT_E_AC3 } ∧
    SpdifStreamOut.eventsSince (sampleStream 4096)
        (SpdifStreamOut.open (sampleSink (-19) 4096) (sampleStream 4096) 1 2
          (sampleConfig AUDIO_FORMAT_E_AC3 48000 AUDIO_CHANNEL_OUT_STEREO) "0").2 =
      [Event.sinkOpen 1 2
        (sampleConfig AUDIO_FORMAT_IEC61937 192000 AUDIO_CHANNEL_OUT_STEREO) "0"] :=
  ⟨SpdifStreamOut.getAudioProperties_after_open (sampleSink 0 4096) (sampleStream 4096) 1 2
      (sampleConfig AUDIO_FORMAT_AC3 48000 AUDIO_CHANNEL_OUT_STEREO) "0" (by decide),
   SpdifStreamOut.getAudioProperties_after_open (sampleSink (-19) 4096) (sampleStream 4096) 1 2
      (sampleConfig AUDIO_FORMAT_E_AC3 48000 AUDIO_CHANNEL_OUT_STEREO) "0" (by decide),
   rfl⟩

/-! ## Lemmas on the loop of `writeDataBurst` -/

theorem chunk_eq_min (left hal : Nat) : (if left > hal then hal else left) = min left hal := by
  split <;> omega

theorem toSize_of_nonneg (z : Int) (h0 : 0 ≤ z) (h1 : z < (SIZE_MOD : Int)) :
    toSize z = z.toNat := by
  unfold toSize
  rw [Int.emod_eq_of_lt h0 h1]

theorem toSsize_of_le (n : Nat) (h : n ≤ SSIZE_MAX) : toSsize n = (n : Int) := by
  unfold toSsize
  rw [if_pos h]

theorem acceptedSum_append (l₁ l₂ : List Event) :
    acceptedSum (l₁ ++ l₂) = acceptedSum l₁ + acceptedSum l₂ := by
  induction l₁ with
  | nil => simp [acceptedSum]
  | cons e rest ih =>
    cases e <;> simp [acceptedSum, ih, add_assoc]

theorem SpdifStreamOut.writeDataBurstBody_break {σ ε : Type} (sink : AudioStreamOut σ)
    (s : BurstLoop σ ε) (h : min s.leftBytes s.self.mHalBufferSize = 0) :
    SpdifStreamOut.writeDataBurstBody sink s = (true, s) := by
  simp only [SpdifStreamOut.writeDataBurstBody, chunk_eq_min, h, le_refl, if_true]

theorem SpdifStreamOut.writeDataBurstBody_write {σ ε : Type} (sink : AudioStreamOut σ)
    (s : BurstLoop σ ε) (h : 0 < min s.leftBytes s.self.mHalBufferSize) :
    SpdifStreamOut.writeDataBurstBody sink s =
      (false,
        { self := { s.self with
            stream := (sink.write s.self.stream s.totalBytes
              (min s.leftBytes s.self.mHalBufferSize)).2,
            log := s.self.log ++ [Event.sinkWrite s.totalBytes
              (min s.leftBytes s.self.mHalBufferSize)
              (sink.write s.self.stream s.totalBytes
                (min s.leftBytes s.self.mHalBufferSize)).1] },
          totalBytes := (s.totalBytes + toSize (sink.write s.self.stream s.totalBytes
            (min s.leftBytes s.self.mHalBufferSize)).1) % SIZE_MOD,
          leftBytes := (s.leftBytes + SIZE_MOD - toSize (sink.write s.self.stream s.totalBytes
            (min s.leftBytes s.self.mHalBufferSize)).1) % SIZE_MOD }) := by
  have h1 : ¬ (min s.leftBytes s.self.mHalBufferSize ≤ 0) := by omega
  simp only [SpdifStreamOut.writeDataBurstBody, chunk_eq_min, h1, if_false, Nat.not_lt_zero]

theorem SpdifStreamOut.writeDataBurstLoop_zero {σ ε : Type} (sink : AudioStreamOut σ)
    (s : BurstLoop σ ε) :
    SpdifStreamOut.writeDataBurstLoop sink 0 s =
      (SpdifStreamOut.writeDataBurstBody sink s).2 := rfl

theorem SpdifStreamOut.writeDataBurstLoop_succ {σ ε : Type} (sink : AudioStreamOut σ)
    (n : Nat) (s : BurstLoop σ ε) :
    SpdifStreamOut.writeDataBurstLoop sink (n + 1) s =
      if (SpdifStreamOut.writeDataBurstBody sink s).1 = true then
        (SpdifStreamOut.writeDataBurstBody sink s).2
      else if n > 0 ∧ (SpdifStreamOut.writeDataBurstBody sink s).2.leftBytes > 0 then
        SpdifStreamOut.writeDataBurstLoop sink n (SpdifStreamOut.writeDataBurstBody sink s).2
      else (SpdifStreamOut.writeDataBurstBody sink s).2 := rfl

theorem SpdifStreamOut.writeDataBurstLoop_break {σ ε : Type} (sink : AudioStreamOut σ)
    (n : Nat) (s : BurstLoop σ ε) (h : min s.leftBytes s.self.mHalBufferSize = 0) :
    SpdifStreamOut.writeDataBurstLoop sink n s = s := by
  cases n with
  | zero =>
    rw [SpdifStreamOut.writeDataBurstLoop_zero, SpdifStreamOut.writeDataBurstBody_break sink s h]
  | succ m =>
    rw [SpdifStreamOut.writeDataBurstLoop_succ, SpdifStreamOut.writeDataBurstBody_break sink s h]
    simp

/-- Whatever the sink does, the loop entered with `maxCount = n` only appends sink writes to
the log, at most `max n 1` of them. -/
theorem SpdifStreamOut.writeDataBurstLoop_log {σ ε : Type} (sink : AudioStreamOut σ) :
    ∀ (n : Nat) (s : BurstLoop σ ε), ∃ ws : List Event,
      (SpdifStreamOut.writeDataBurstLoop sink n s).self.log = s.self.log ++ ws ∧
      ws.length ≤ max n 1 ∧ ∀ e ∈ ws, e.isSinkWrite = true := by
  intro n
  induction n with
  | zero =>
    intro s
    rw [SpdifStreamOut.writeDataBurstLoop_zero]
    by_cases h : min s.leftBytes s.self.mHalBufferSize = 0
    · rw [SpdifStreamOut.writeDataBurstBody_break sink s h]
      exact ⟨[], by simp, by simp, by simp⟩
    · rw [SpdifStreamOut.writeDataBurstBody_write sink s (by omega)]
      exact ⟨[_], rfl, by simp, by simp [Event.isSinkWrite]⟩
  | succ m ih =>
    intro s
    rw [SpdifStreamOut.writeDataBurstLoop_succ]
    by_cases h : min s.leftBytes s.self.mHalBufferSize = 0
    · rw [SpdifStreamOut.writeDataBurstBody_break sink s h]
      exact ⟨[], by simp, by simp, by simp⟩
    · rw [SpdifStreamOut.writeDataBurstBody_write sink s (by omega)]
      simp only [Bool.false_eq_true, if_false]
      split
      · rename_i hc
        obtain ⟨ws, hlog, hlen, hall⟩ := ih
          { self := { s.self with
              stream := (sink.write s.self.stream s.totalBytes
                (min s.leftBytes s.self.mHalBufferSize)).2,
              log := s.self.log ++ [Event.sinkWrite s.totalBytes
                (min s.leftBytes s.self.mHalBufferSize)
                (sink.write s.self.stream s.totalBytes
                  (min s.leftBytes s.self.mHalBufferSize)).1] },
            totalBytes := (s.totalBytes + toSize (sink.write s.self.stream s.totalBytes
              (min s.leftBytes s.self.mHalBufferSize)).1) % SIZE_MOD,
            leftBytes := (s.leftBytes + SIZE_MOD - toSize (sink.write s.self.stream
              s.totalBytes (min s.leftBytes s.self.mHalBufferSize)).1) % SIZE_MOD }
        refine ⟨Event.sinkWrite s.totalBytes (min s.leftBytes s.self.mHalBufferSize)
          (sink.write s.self.stream s.totalBytes
            (min s.leftBytes s.self.mHalBufferSize)).1 :: ws, ?_, ?_, ?_⟩
        · rw [hlog]; simp
        · have hm : 0 < m := hc.1
          simp only [List.length_cons]
          omega
        · intro e he
          rcases List.mem_cons.1 he with h1 | h1
          · rw [h1]; rfl
          · exact hall e h1
      · exact ⟨[_], rfl, by simp, by simp [Event.isSinkWrite]⟩

/-- Over a well-behaved sink and without overflow of the byte counts, the loop keeps
`totalBytes + leftBytes` and adds to `totalBytes` exactly what the logged writes returned. -/
theorem SpdifStreamOut.writeDataBurstLoop_accepted {σ ε : Type} (sink : AudioStreamOut σ)
    (hw : sink.WellBehaved) :
    ∀ (n : Nat) (s : BurstLoop σ ε), s.totalBytes + s.leftBytes < SIZE_MOD →
      ∃ ws : List Event,
        (SpdifStreamOut.writeDataBurstLoop sink n s).self.log = s.self.log ++ ws ∧
        ((SpdifStreamOut.writeDataBurstLoop sink n s).totalBytes : Int) =
          (s.totalBytes : Int) + acceptedSum ws ∧
        (SpdifStreamOut.writeDataBurstLoop sink n s).totalBytes +
          (SpdifStreamOut.writeDataBurstLoop sink n s).leftBytes =
          s.totalBytes + s.leftBytes := by
  have step : ∀ s : BurstLoop σ ε, s.totalBytes + s.leftBytes < SIZE_MOD →
      0 < min s.leftBytes s.self.mHalBufferSize →
      ∃ k : Nat, (sink.write s.self.stream s.totalBytes
          (min s.leftBytes s.self.mHalBufferSize)).1 = (k : Int) ∧ k ≤ s.leftBytes ∧
        (s.totalBytes + toSize (sink.write s.self.stream s.totalBytes
          (min s.leftBytes s.self.mHalBufferSize)).1) % SIZE_MOD = s.totalBytes + k ∧
        (s.leftBytes + SIZE_MOD - toSize (sink.write s.self.stream s.totalBytes
          (min s.leftBytes s.self.mHalBufferSize)).1) % SIZE_MOD = s.leftBytes - k := by
    intro s hs _
    obtain ⟨h0, h1⟩ := hw s.self.stream s.totalBytes (min s.leftBytes s.self.mHalBufferSize)
    obtain ⟨k, hk⟩ := Int.eq_ofNat_of_zero_le h0
    rw [hk] at h1
    have hk1 : k ≤ min s.leftBytes s.self.mHalBufferSize := by exact_mod_cast h1
    have hk2 : k ≤ s.leftBytes := by omega
    have hk3 : toSize (k : Int) = k := by
      rw [toSize_of_nonneg _ (by omega) (by
        have : k < SIZE_MOD := by omega
        exact_mod_cast this)]
      simp
    refine ⟨k, hk, hk2, ?_, ?_⟩
    · rw [hk, hk3]
      exact Nat.mod_eq_of_lt (by omega)
    · rw [hk, hk3]
      have : s.leftBytes + SIZE_MOD - k = s.leftBytes - k + SIZE_MOD := by omega
      rw [this, Nat.add_mod_right]
      exact Nat.mod_eq_of_lt (by omega)
  have one : ∀ s : BurstLoop σ ε, s.totalBytes + s.leftBytes < SIZE_MOD →
      ∃ ws : List Event,
        (SpdifStreamOut.writeDataBurstBody sink s).2.self.log = s.self.log ++ ws ∧
        ((SpdifStreamOut.writeDataBurstBody sink s).2.totalBytes : Int) =
          (s.totalBytes : Int) + acceptedSum ws ∧
        (SpdifStreamOut.writeDataBurstBody sink s).2.totalBytes +
          (SpdifStreamOut.writeDataBurstBody sink s).2.leftBytes =
          s.totalBytes + s.leftBytes := by
    intro s hs
    by_cases h : min s.leftBytes s.self.mHalBufferSize = 0
    · rw [SpdifStreamOut.writeDataBurstBody_break sink s h]
      exact ⟨[], by simp, by simp [acceptedSum], rfl⟩
    · obtain ⟨k, hk, hk2, ht, hl⟩ := step s hs (by omega)
      rw [SpdifStreamOut.writeDataBurstBody_write sink s (by omega)]
      refine ⟨[_], rfl, ?_, ?_⟩
      · dsimp only
        rw [ht, hk]
        simp [acceptedSum]
      · dsimp only
        rw [ht, hl]
        omega
  intro n
  induction n with
  | zero =>
    intro s hs
    rw [SpdifStreamOut.writeDataBurstLoop_zero]
    exact one s hs
  | succ m ih =>
    intro s hs
    rw [SpdifStreamOut.writeDataBurstLoop_succ]
    obtain ⟨ws₁, hlog₁, hsum₁, hinv₁⟩ := one s hs
    split
    · exact ⟨ws₁, hlog₁, hsum₁, hinv₁⟩
    · split
      · obtain ⟨ws₂, hlog₂, hsum₂, hinv₂⟩ :=
          ih (SpdifStreamOut.writeDataBurstBody sink s).2 (by omega)
        refine ⟨ws₁ ++ ws₂, ?_, ?_, ?_⟩
        · rw [hlog₂, hlog₁, List.append_assoc]
        · rw [hsum₂, hsum₁, acceptedSum_append]
          ring
        · omega
      · exact ⟨ws₁, hlog₁, hsum₁, hinv₁⟩

theorem toSsize_of_gt (n : Nat) (h : SSIZE_MAX < n) :
    toSsize n = (n : Int) - (SIZE_MOD : Int) := by
  unfold toSsize
  rw [if_neg (by omega)]

theorem toSsize_le_self (n : Nat) : toSsize n ≤ (n : Int) := by
  unfold toSsize
  split
  · exact le_refl _
  · omega

/-- One call of `writeDataBurst` over a well-behaved sink, for a `size_t` byte count: the
final `totalBytes`, whose conversion is returned, is the sum of what the logged writes
returned, and it is at most `bytes`. -/
theorem SpdifStreamOut.writeDataBurst_sum {σ ε : Type} (sink : AudioStreamOut σ)
    (hw : sink.WellBehaved) (self : SpdifStreamOut σ ε) (bytes : Nat)
    (hb : bytes < SIZE_MOD) :
    ∃ total : Nat,
      (SpdifStreamOut.writeDataBurst sink self bytes).1 = toSsize total ∧
      (total : Int) = acceptedSum (SpdifStreamOut.eventsSince self
        (SpdifStreamOut.writeDataBurst sink self bytes).2) ∧
      total ≤ bytes ∧
      total = (SpdifStreamOut.writeDataBurstLoop sink 10
        ({ self := self, totalBytes := 0, leftBytes := bytes } : BurstLoop σ ε)).totalBytes := by
  obtain ⟨ws, hlog, hsum, hinv⟩ := SpdifStreamOut.writeDataBurstLoop_accepted sink hw 10
    ({ self := self, totalBytes := 0, leftBytes := bytes } : BurstLoop σ ε)
    (by simp only [Nat.zero_add]; exact hb)
  have hlog2 : (SpdifStreamOut.writeDataBurst sink self bytes).2.log = self.log ++ ws := hlog
  rw [SpdifStreamOut.eventsSince_append self _ ws hlog2]
  simp only [Nat.zero_add, Nat.cast_zero, zero_add] at hsum hinv
  exact ⟨_, rfl, hsum, by omega, rfl⟩

/-! ## The burst writer -/

/-- C6: for every buffer length, every chunk limit and every behaviour of the sink, one call
of `writeDataBurst` (a total function: it always returns) adds at most 10 calls to the log, so
it invokes the write of the sink at most 10 times. -/
theorem SpdifStreamOut.writeDataBurst_at_most_ten_writes {σ ε : Type}
    (sink : AudioStreamOut σ) (self : SpdifStreamOut σ ε) (bytes : Nat) :
    (SpdifStreamOut.writeDataBurst sink self bytes).2.log =
      self.log ++
        SpdifStreamOut.eventsSince self (SpdifStreamOut.writeDataBurst sink self bytes).2 ∧
    (SpdifStreamOut.eventsSince self
      (SpdifStreamOut.writeDataBurst sink self bytes).2).length ≤ 10 ∧
    ((SpdifStreamOut.eventsSince self
      (SpdifStreamOut.writeDataBurst sink self bytes).2).filter Event.isSinkWrite).length ≤
      10 := by
  obtain ⟨ws, hlog, hlen, _⟩ := SpdifStreamOut.writeDataBurstLoop_log sink 10
    ({ self := self, totalBytes := 0, leftBytes := bytes } : BurstLoop σ ε)
  have hlog2 : (SpdifStreamOut.writeDataBurst sink self bytes).2.log = self.log ++ ws := hlog
  have hev := SpdifStreamOut.eventsSince_append self
    (SpdifStreamOut.writeDataBurst sink self bytes).2 ws hlog2
  rw [hev]
  have hlen2 : ws.length ≤ 10 := by simpa using hlen
  exact ⟨hlog2, hlen2, le_trans (List.length_filter_le _ _) hlen2⟩

/-- C7, as amended: for every buffer length `bytes` (any `size_t`), every chunk limit and
every sink whose write accepts between 0 and the number of bytes offered, the sum of the sizes
the sink accepted over all attempts never exceeds `bytes`, and `writeDataBurst` returns that
sum converted to `ssize_t`: whenever the sum is at most SSIZE_MAX (in particular whenever
`bytes` is at most SSIZE_MAX) it returns exactly the sum, which is then the minimum of `bytes`
and the sum; when the sum exceeds SSIZE_MAX it returns the sum minus 2^64. -/
theorem SpdifStreamOut.writeDataBurst_returns_accepted_sum {σ ε : Type}
    (sink : AudioStreamOut σ) (self : SpdifStreamOut σ ε) (bytes : Nat)
    (hw : sink.WellBehaved) (hb : bytes < SIZE_MOD) :
    (0 ≤ acceptedSum (SpdifStreamOut.eventsSince self
        (SpdifStreamOut.writeDataBurst sink self bytes).2) ∧
      acceptedSum (SpdifStreamOut.eventsSince self
        (SpdifStreamOut.writeDataBurst sink self bytes).2) ≤ (bytes : Int)) ∧
    (acceptedSum (SpdifStreamOut.eventsSince self
        (SpdifStreamOut.writeDataBurst sink self bytes).2) ≤ (SSIZE_MAX : Int) →
      (SpdifStreamOut.writeDataBurst sink self bytes).1 =
        acceptedSum (SpdifStreamOut.eventsSince self
          (SpdifStreamOut.writeDataBurst sink self bytes).2) ∧
      (SpdifStreamOut.writeDataBurst sink self bytes).1 =
        min (bytes : Int) (acceptedSum (SpdifStreamOut.eventsSince self
          (SpdifStreamOut.writeDataBurst sink self bytes).2))) ∧
    (bytes ≤ SSIZE_MAX →
      (SpdifStreamOut.writeDataBurst sink self bytes).1 =
        acceptedSum (SpdifStreamOut.eventsSince self
          (SpdifStreamOut.writeDataBurst sink self bytes).2) ∧
      (SpdifStreamOut.writeDataBurst sink self bytes).1 =
        min (bytes : Int) (acceptedSum (SpdifStreamOut.eventsSince self
          (SpdifStreamOut.writeDataBurst sink self bytes).2))) ∧
    ((SSIZE_MAX : Int) < acceptedSum (SpdifStreamOut.eventsSince self
        (SpdifStreamOut.writeDataBurst sink self bytes).2) →
      (SpdifStreamOut.writeDataBurst sink self bytes).1 =
        acceptedSum (SpdifStreamOut.eventsSince self
          (SpdifStreamOut.writeDataBurst sink self bytes).2) - (SIZE_MOD : Int)) := by
  obtain ⟨total, hret, hsum, hle, _⟩ :=
    SpdifStreamOut.writeDataBurst_sum sink hw self bytes hb
  rw [← hsum, hret]
  have key : total ≤ SSIZE_MAX →
      toSsize total = (total : Int) ∧ toSsize total = min (bytes : Int) (total : Int) := by
    intro h
    rw [toSsize_of_le _ h]
    refine ⟨rfl, ?_⟩
    omega
  refine ⟨⟨by omega, by omega⟩, ?_, ?_, ?_⟩
  · intro h
    exact key (by omega)
  · intro h
    exact key (by omega)
  · intro h
    exact toSsize_of_gt _ (by omega)

/-- C7 at a concrete input: 100 bytes, chunk limit 4, a sink that accepts at most 3 bytes a
call: ten attempts of 3 bytes each, 30 returned. -/
theorem SpdifStreamOut.writeDataBurst_returns_accepted_sum_witness :
    (sampleSink 0 3).WellBehaved ∧ 100 < SIZE_MOD ∧
    (SpdifStreamOut.writeDataBurst (sampleSink 0 3) (sampleStream 4) 100).1 = 30 ∧
    (SpdifStreamOut.writeDataBurst (sampleSink 0 3) (sampleStream 4) 100).1 =
      acceptedSum (SpdifStreamOut.eventsSince (sampleStream 4)
        (SpdifStreamOut.writeDataBurst (sampleSink 0 3) (sampleStream 4) 100).2) :=
  have hw : (sampleSink 0 3).WellBehaved := by
    intro s offset size
    simp only [sampleSink]
    constructor
    · exact Int.ofNat_nonneg _
    · exact Int.ofNat_le.2 (Nat.min_le_left _ _)
  ⟨hw, by decide, by decide,
   ((SpdifStreamOut.writeDataBurst_returns_accepted_sum (sampleSink 0 3) (sampleStream 4) 100
      hw (by decide)).2.1 (by decide)).1⟩

/-- C7, the claim as stated fails: for a buffer of 2^63 + 5 bytes, chunk limit 2^62 and a sink
that accepts every byte offered, three writes accept 2^63 + 5 bytes in all, and the call
returns -9223372036854775803, which is not that sum. -/
theorem SpdifStreamOut.writeDataBurst_return_wraps :
    acceptingSink.WellBehaved ∧
    (SpdifStreamOut.writeDataBurst acceptingSink (sampleStream 4611686018427387904)
      9223372036854775813).1 = -9223372036854775803 ∧
    acceptedSum (SpdifStreamOut.eventsSince (sampleStream 4611686018427387904)
      (SpdifStreamOut.writeDataBurst acceptingSink (sampleStream 4611686018427387904)
        9223372036854775813).2) = 9223372036854775813 ∧
    (SpdifStreamOut.writeDataBurst acceptingSink (sampleStream 4611686018427387904)
      9223372036854775813).1 ≠
      acceptedSum (SpdifStreamOut.eventsSince (sampleStream 4611686018427387904)
        (SpdifStreamOut.writeDataBurst acceptingSink (sampleStream 4611686018427387904)
          9223372036854775813).2) := by
  refine ⟨?_, by decide, by decide, by decide⟩
  intro s offset size
  exact ⟨Int.ofNat_nonneg _, le_refl _⟩

/-- C8, the code at a failing input: 4 bytes, chunk limit 4, a sink whose write returns -32 on
every call. The test `size < 0` is made on a `size_t` and never holds: the loop runs all ten
attempts, at offsets that wrapped around, and the call returns -320, where the claim has one
attempt and the result 0. -/
theorem SpdifStreamOut.writeDataBurst_misses_sink_failure :
    (SpdifStreamOut.writeDataBurst (failingSink (-32)) (sampleStream 4) 4).1 = -320 ∧
    SpdifStreamOut.eventsSince (sampleStream 4)
        (SpdifStreamOut.writeDataBurst (failingSink (-32)) (sampleStream 4) 4).2 =
      (List.range 10).map
        (fun i => Event.sinkWrite ((18446744073709551616 - 32 * i) % 18446744073709551616) 4
          (-32)) ∧
    (SpdifStreamOut.writeDataBurstBody (failingSink (-32))
      ({ self := sampleStream 4, totalBytes := 0, leftBytes := 4 } :
        BurstLoop Nat (List Nat))).1 = false := by
  decide

/-- C9: whenever the chunk to offer, the minimum of the bytes left and the chunk limit, is
zero, the body of the loop breaks and the loop ends in the state it was entered in (no call
logged, the sink untouched, the same total, which is what is returned); in particular
`writeDataBurst` with 0 bytes, or with a chunk limit of 0, returns 0 and changes nothing. -/
theorem SpdifStreamOut.writeDataBurst_zero_chunk {σ ε : Type} (sink : AudioStreamOut σ) :
    (∀ (n : Nat) (s : BurstLoop σ ε), min s.leftBytes s.self.mHalBufferSize = 0 →
      SpdifStreamOut.writeDataBurstBody sink s = (true, s) ∧
      SpdifStreamOut.writeDataBurstLoop sink n s = s) ∧
    (∀ self : SpdifStreamOut σ ε, SpdifStreamOut.writeDataBurst sink self 0 = (0, self)) ∧
    (∀ (self : SpdifStreamOut σ ε) (bytes : Nat), self.mHalBufferSize = 0 →
      SpdifStreamOut.writeDataBurst sink self bytes = (0, self)) := by
  refine ⟨fun n s h => ⟨SpdifStreamOut.writeDataBurstBody_break sink s h,
    SpdifStreamOut.writeDataBurstLoop_break sink n s h⟩, ?_, ?_⟩
  · intro self
    simp only [SpdifStreamOut.writeDataBurst]
    rw [SpdifStreamOut.writeDataBurstLoop_break sink 10 _ (by simp)]
    rfl
  · intro self bytes h
    simp only [SpdifStreamOut.writeDataBurst]
    rw [SpdifStreamOut.writeDataBurstLoop_break sink 10 _ (by simp [h])]
    rfl

/-- C9 at concrete inputs: 0 bytes with chunk limit 4, and 100 bytes with chunk limit 0. -/
theorem SpdifStreamOut.writeDataBurst_zero_chunk_witness :
    SpdifStreamOut.writeDataBurst (sampleSink 0 3) (sampleStream 4) 0 = (0, sampleStream 4) ∧
    SpdifStreamOut.writeDataBurst (sampleSink 0 3) (sampleStream 0) 100 =
      (0, sampleStream 0) :=
  ⟨(SpdifStreamOut.writeDataBurst_zero_chunk (sampleSink 0 3)).2.1 (sampleStream 4),
   (SpdifStreamOut.writeDataBurst_zero_chunk (sampleSink 0 3)).2.2 (sampleStream 0) 100 rfl⟩

/-! ## Reset hooks -/

/-- C10: for every state of the adapter, `flush` and `standby` each make exactly two outgoing
calls, first the reset of the encoder and then the flush (standby) of the sink; the encoder is
left in the state its reset produced, so any framing observation that reset clears is clear
whatever was written before; and the result of the sink is returned unchanged. -/
theorem SpdifStreamOut.flush_standby_reset_then_forward {σ ε : Type}
    (sink : AudioStreamOut σ) (encoder : SPDIFEncoder ε) (self : SpdifStreamOut σ ε) :
    (SpdifStreamOut.eventsSince self (SpdifStreamOut.flush sink encoder self).2 =
        [Event.encoderReset, Event.sinkFlush] ∧
      (SpdifStreamOut.flush sink encoder self).2.mSpdifEncoder =
        encoder.reset self.mSpdifEncoder ∧
      (SpdifStreamOut.flush sink encoder self).1 = (sink.flush self.stream).1 ∧
      (SpdifStreamOut.flush sink encoder self).2.stream = (sink.flush self.stream).2) ∧
    (SpdifStreamOut.eventsSince self (SpdifStreamOut.standby sink encoder self).2 =
        [Event.encoderReset, Event.sinkStandby] ∧
      (SpdifStreamOut.standby sink encoder self).2.mSpdifEncoder =
        encoder.reset self.mSpdifEncoder ∧
      (SpdifStreamOut.standby sink encoder self).1 = (sink.standby self.stream).1 ∧
      (SpdifStreamOut.standby sink encoder self).2.stream = (sink.standby self.stream).2) ∧
    (∀ (φ : Type) (framing : ε → φ) (fresh : φ),
      (∀ e : ε, framing (encoder.reset e) = fresh) →
      framing (SpdifStreamOut.flush sink encoder self).2.mSpdifEncoder = fresh ∧
      framing (SpdifStreamOut.standby sink encoder self).2.mSpdifEncoder = fresh) := by
  refine ⟨⟨?_, rfl, rfl, rfl⟩, ⟨?_, rfl, rfl, rfl⟩, ?_⟩
  · exact SpdifStreamOut.eventsSince_append _ _ _ (by simp [SpdifStreamOut.flush])
  · exact SpdifStreamOut.eventsSince_append _ _ _ (by simp [SpdifStreamOut.standby])
  · intro φ framing fresh h
    exact ⟨h _, h _⟩

/-- C10 at a concrete input: the sample encoder holds the residue of a 5-byte write; after
`flush`, and after `standby`, its residue is empty, and the result 0 of the sink comes back. -/
theorem SpdifStreamOut.flush_standby_reset_then_forward_witness :
    (SpdifStreamOut.write (sampleSink 0 3) sampleEncoder (sampleStream 4) 5).2.mSpdifEncoder =
      [5] ∧
    (SpdifStreamOut.flush (sampleSink 0 3) sampleEncoder
      (SpdifStreamOut.write (sampleSink 0 3) sampleEncoder (sampleStream 4) 5).2).2.mSpdifEncoder
      = [] ∧
    (SpdifStreamOut.standby (sampleSink 0 3) sampleEncoder
      (SpdifStreamOut.write (sampleSink 0 3) sampleEncoder (sampleStream 4) 5).2).2.mSpdifEncoder
      = [] ∧
    (SpdifStreamOut.flush (sampleSink 0 3) sampleEncoder
      (SpdifStreamOut.write (sampleSink 0 3) sampleEncoder (sampleStream 4) 5).2).1 = 0 :=
  ⟨rfl,
   ((SpdifStreamOut.flush_standby_reset_then_forward (sampleSink 0 3) sampleEncoder
      (SpdifStreamOut.write (sampleSink 0 3) sampleEncoder (sampleStream 4) 5).2).2.2
      (List Nat) id [] (fun _ => rfl)).1,
   ((SpdifStreamOut.flush_standby_reset_then_forward (sampleSink 0 3) sampleEncoder
      (SpdifStreamOut.write (sampleSink 0 3) sampleEncoder (sampleStream 4) 5).2).2.2
      (List Nat) id [] (fun _ => rfl)).2,
   (SpdifStreamOut.flush_standby_reset_then_forward (sampleSink 0 3) sampleEncoder
      (SpdifStreamOut.write (sampleSink 0 3) sampleEncoder (sampleStream 4) 5).2).1.2.2.1⟩

/-! ## More on `open`: determinism, the error path, 32-bit arithmetic -/

theorem SpdifStreamOut.resolveDeviceConfig_extended (config : audio_config)
    (hf : config.format = AUDIO_FORMAT_E_AC3 ∨ config.format = AUDIO_FORMAT_E_AC3_JOC) :
    SpdifStreamOut.resolveDeviceConfig config = some (4,
      { config with
        sample_rate := (config.sample_rate * 4) % 2 ^ 32,
        channel_mask := AUDIO_CHANNEL_OUT_STEREO,
        format := AUDIO_FORMAT_IEC61937 }) := by
  simp only [SpdifStreamOut.resolveDeviceConfig, hf, if_true, UINT32_MOD]

theorem SpdifStreamOut.resolveDeviceConfig_basic (config : audio_config)
    (hf : config.format = AUDIO_FORMAT_AC3 ∨ config.format = AUDIO_FORMAT_DTS) :
    SpdifStreamOut.resolveDeviceConfig config = some (1,
      { config with
        sample_rate := config.sample_rate,
        channel_mask := AUDIO_CHANNEL_OUT_STEREO,
        format := AUDIO_FORMAT_IEC61937 }) := by
  have hne : ¬ (config.format = AUDIO_FORMAT_E_AC3 ∨
      config.format = AUDIO_FORMAT_E_AC3_JOC) := by
    rcases hf with h | h <;> rw [h] <;> decide
  simp only [SpdifStreamOut.resolveDeviceConfig, hne, hf, if_true, if_false]

theorem SpdifStreamOut.resolveDeviceConfig_dts_hd (config : audio_config)
    (hf : config.format = AUDIO_FORMAT_DTS_HD) :
    SpdifStreamOut.resolveDeviceConfig config = some (1,
      { config with
        sample_rate := 192000,
        channel_mask := AUDIO_CHANNEL_OUT_7POINT1,
        format := AUDIO_FORMAT_IEC61937 }) := by
  have h1 : ¬ (AUDIO_FORMAT_DTS_HD = AUDIO_FORMAT_E_AC3 ∨
      AUDIO_FORMAT_DTS_HD = AUDIO_FORMAT_E_AC3_JOC) := by decide
  have h2 : ¬ (AUDIO_FORMAT_DTS_HD = AUDIO_FORMAT_AC3 ∨
      AUDIO_FORMAT_DTS_HD = AUDIO_FORMAT_DTS) := by decide
  simp only [SpdifStreamOut.resolveDeviceConfig, hf, h1, h2, if_true, if_false]

theorem SpdifStreamOut.resolveDeviceConfig_none (config : audio_config)
    (hu : ¬ SpdifStreamOut.isSupported config.format) :
    SpdifStreamOut.resolveDeviceConfig config = none := by
  cases hr : SpdifStreamOut.resolveDeviceConfig config with
  | none => rfl
  | some mc =>
    exact absurd ((SpdifStreamOut.resolveDeviceConfig_isSome_iff config).1
      (by rw [hr]; rfl)) hu

/-- C11: the device config resolved by `open` is a function of the compressed format and the
requested sample rate only: two application configs with the same supported format and the
same sample rate, whatever their channel masks, resolve to the same rate multiplier, device
sample rate, device channel mask and device format, and these are the multiplier `open`
stores and the config `open` hands to the sink. -/
theorem SpdifStreamOut.resolveDeviceConfig_deterministic {σ ε : Type}
    (sink : AudioStreamOut σ) (self : SpdifStreamOut σ ε) (handle devices : Nat)
    (address : String) (c₁ c₂ : audio_config)
    (hs : SpdifStreamOut.isSupported c₁.format) (hf : c₁.format = c₂.format)
    (hr : c₁.sample_rate = c₂.sample_rate) :
    ∃ (m : Nat) (d₁ d₂ : audio_config),
      SpdifStreamOut.resolveDeviceConfig c₁ = some (m, d₁) ∧
      SpdifStreamOut.resolveDeviceConfig c₂ = some (m, d₂) ∧
      d₁.sample_rate = d₂.sample_rate ∧ d₁.channel_mask = d₂.channel_mask ∧
      d₁.format = d₂.format ∧
      (SpdifStreamOut.open sink self handle devices c₁ address).2.mRateMultiplier = m ∧
      (SpdifStreamOut.open sink self handle devices c₂ address).2.mRateMultiplier = m ∧
      SpdifStreamOut.eventsSince self
          (SpdifStreamOut.open sink self handle devices c₁ address).2 =
        [Event.sinkOpen handle devices d₁ address] ∧
      SpdifStreamOut.eventsSince self
          (SpdifStreamOut.open sink self handle devices c₂ address).2 =
        [Event.sinkOpen handle devices d₂ address] := by
  have key : ∀ (m : Nat) (d₁ d₂ : audio_config),
      SpdifStreamOut.resolveDeviceConfig c₁ = some (m, d₁) →
      SpdifStreamOut.resolveDeviceConfig c₂ = some (m, d₂) →
      (SpdifStreamOut.open sink self handle devices c₁ address).2.mRateMultiplier = m ∧
      (SpdifStreamOut.open sink self handle devices c₂ address).2.mRateMultiplier = m ∧
      SpdifStreamOut.eventsSince self
          (SpdifStreamOut.open sink self handle devices c₁ address).2 =
        [Event.sinkOpen handle devices d₁ address] ∧
      SpdifStreamOut.eventsSince self
          (SpdifStreamOut.open sink self handle devices c₂ address).2 =
        [Event.sinkOpen handle devices d₂ address] := by
    intro m d₁ d₂ h₁ h₂
    rw [SpdifStreamOut.open_of_some sink self handle devices c₁ address m d₁ h₁,
      SpdifStreamOut.open_of_some sink self handle devices c₂ address m d₂ h₂]
    exact ⟨rfl, rfl, SpdifStreamOut.eventsSince_append _ _ _ rfl,
      SpdifStreamOut.eventsSince_append _ _ _ rfl⟩
  rcases hs with h | h | h | h | h
  · have h₁ := SpdifStreamOut.resolveDeviceConfig_extended c₁ (Or.inl h)
    have h₂ := SpdifStreamOut.resolveDeviceConfig_extended c₂ (Or.inl (hf ▸ h))
    exact ⟨_, _, _, h₁, h₂, by simp only [hr], rfl, rfl, key _ _ _ h₁ h₂⟩
  · have h₁ := SpdifStreamOut.resolveDeviceConfig_extended c₁ (Or.inr h)
    have h₂ := SpdifStreamOut.resolveDeviceConfig_extended c₂ (Or.inr (hf ▸ h))
    exact ⟨_, _, _, h₁, h₂, by simp only [hr], rfl, rfl, key _ _ _ h₁ h₂⟩
  · have h₁ := SpdifStreamOut.resolveDeviceConfig_basic c₁ (Or.inl h)
    have h₂ := SpdifStreamOut.resolveDeviceConfig_basic c₂ (Or.inl (hf ▸ h))
    exact ⟨_, _, _, h₁, h₂, hr, rfl, rfl, key _ _ _ h₁ h₂⟩
  · have h₁ := SpdifStreamOut.resolveDeviceConfig_basic c₁ (Or.inr h)
    have h₂ := SpdifStreamOut.resolveDeviceConfig_basic c₂ (Or.inr (hf ▸ h))
    exact ⟨_, _, _, h₁, h₂, hr, rfl, rfl, key _ _ _ h₁ h₂⟩
  · have h₁ := SpdifStreamOut.resolveDeviceConfig_dts_hd c₁ h
    have h₂ := SpdifStreamOut.resolveDeviceConfig_dts_hd c₂ (hf ▸ h)
    exact ⟨_, _, _, h₁, h₂, rfl, rfl, rfl, key _ _ _ h₁ h₂⟩

/-- C11 at a concrete input: E-AC3 at 48000 Hz requested once as stereo and once as 7.1. -/
theorem SpdifStreamOut.resolveDeviceConfig_deterministic_witness :
    ∃ (m : Nat) (d₁ d₂ : audio_config),
      SpdifStreamOut.resolveDeviceConfig
        (sampleConfig AUDIO_FORMAT_E_AC3 48000 AUDIO_CHANNEL_OUT_STEREO) = some (m, d₁) ∧
      SpdifStreamOut.resolveDeviceConfig
        (sampleConfig AUDIO_FORMAT_E_AC3 48000 AUDIO_CHANNEL_OUT_7POINT1) = some (m, d₂) ∧
      d₁.sample_rate = d₂.sample_rate ∧ d₁.channel_mask = d₂.channel_mask ∧
      d₁.format = d₂.format :=
  match SpdifStreamOut.resolveDeviceConfig_deterministic (sampleSink 0 4096)
      (sampleStream 4096) 1 2 "0"
      (sampleConfig AUDIO_FORMAT_E_AC3 48000 AUDIO_CHANNEL_OUT_STEREO)
      (sampleConfig AUDIO_FORMAT_E_AC3 48000 AUDIO_CHANNEL_OUT_7POINT1)
      (by decide) rfl rfl with
  | ⟨m, d₁, d₂, h₁, h₂, h₃, h₄, h₅, _⟩ => ⟨m, d₁, d₂, h₁, h₂, h₃, h₄, h₅⟩

/-- C17: `open` is not atomic on error: for every config with an unsupported format it
returns BAD_VALUE after having overwritten the stored application format, sample rate and
channel mask with the values of the rejected config, so that `getAudioProperties` then returns
the rejected config; the rate multiplier keeps the value it had before the call. -/
theorem SpdifStreamOut.open_not_atomic_on_error {σ ε : Type} (sink : AudioStreamOut σ)
    (self : SpdifStreamOut σ ε) (handle devices : Nat) (config : audio_config)
    (address : String) (hu : ¬ SpdifStreamOut.isSupported config.format) :
    (SpdifStreamOut.open sink self handle devices config address).1 = BAD_VALUE ∧
    (SpdifStreamOut.open sink self handle devices config address).2.mApplicationFormat =
      config.format ∧
    (SpdifStreamOut.open sink self handle devices config address).2.mApplicationSampleRate =
      config.sample_rate ∧
    (SpdifStreamOut.open sink self handle devices config address).2.mApplicationChannelMask =
      config.channel_mask ∧
    SpdifStreamOut.getAudioProperties
        (SpdifStreamOut.open sink self handle devices config address).2 =
      { sample_rate := config.sample_rate,
        channel_mask := config.channel_mask,
        format := config.format } ∧
    (SpdifStreamOut.open sink self handle devices config address).2.mRateMultiplier =
      self.mRateMultiplier := by
  rw [SpdifStreamOut.open_of_none sink self handle devices config address
    (SpdifStreamOut.resolveDeviceConfig_none config hu)]
  exact ⟨rfl, rfl, rfl, rfl, rfl, rfl⟩

/-- C17 at a concrete input: an adapter opened with E-AC3 / 48000 / stereo (multiplier 4) is
opened again with the unsupported format 0 at 44100 Hz, 7.1: the query returns the rejected
config and the multiplier is still 4. -/
theorem SpdifStreamOut.open_not_atomic_on_error_witness :
    (SpdifStreamOut.open (sampleSink 0 4096) (sampleStream 4096) 1 2
      (sampleConfig AUDIO_FORMAT_E_AC3 48000 AUDIO_CHANNEL_OUT_STEREO) "0").2.mRateMultiplier
      = 4 ∧
    SpdifStreamOut.getAudioProperties
        (SpdifStreamOut.open (sampleSink 0 4096)
          (SpdifStreamOut.open (sampleSink 0 4096) (sampleStream 4096) 1 2
            (sampleConfig AUDIO_FORMAT_E_AC3 48000 AUDIO_CHANNEL_OUT_STEREO) "0").2 1 2
          (sampleConfig AUDIO_FORMAT_DEFAULT 44100 AUDIO_CHANNEL_OUT_7POINT1) "0").2 =
      { sample_rate := 44100, channel_mask := AUDIO_CHANNEL_OUT_7POINT1,
        format := AUDIO_FORMAT_DEFAULT } ∧
    (SpdifStreamOut.open (sampleSink 0 4096)
        (SpdifStreamOut.open (sampleSink 0 4096) (sampleStream 4096) 1 2
          (sampleConfig AUDIO_FORMAT_E_AC3 48000 AUDIO_CHANNEL_OUT_STEREO) "0").2 1 2
        (sampleConfig AUDIO_FORMAT_DEFAULT 44100 AUDIO_CHANNEL_OUT_7POINT1)
        "0").2.mRateMultiplier = 4 :=
  ⟨rfl,
   (SpdifStreamOut.open_not_atomic_on_error (sampleSink 0 4096)
      (SpdifStreamOut.open (sampleSink 0 4096) (sampleStream 4096) 1 2
        (sampleConfig AUDIO_FORMAT_E_AC3 48000 AUDIO_CHANNEL_OUT_STEREO) "0").2 1 2
      (sampleConfig AUDIO_FORMAT_DEFAULT 44100 AUDIO_CHANNEL_OUT_7POINT1) "0"
      (by decide)).2.2.2.2.1,
   (SpdifStreamOut.open_not_atomic_on_error (sampleSink 0 4096)
      (SpdifStreamOut.open (sampleSink 0 4096) (sampleStream 4096) 1 2
        (sampleConfig AUDIO_FORMAT_E_AC3 48000 AUDIO_CHANNEL_OUT_STEREO) "0").2 1 2
      (sampleConfig AUDIO_FORMAT_DEFAULT 44100 AUDIO_CHANNEL_OUT_7POINT1) "0"
      (by decide)).2.2.2.2.2⟩

/-- C18: for format E-AC3 or E-AC3-JOC and every requested rate r in [0, 2^32), the rate
handed to the sink is (4 x r) mod 2^32, and it equals the exact product 4 x r if and only if
r < 2^30. -/
theorem SpdifStreamOut.open_e_ac3_rate_mod {σ ε : Type} (sink : AudioStreamOut σ)
    (self : SpdifStreamOut σ ε) (handle devices : Nat) (config : audio_config)
    (address : String)
    (hf : config.format = AUDIO_FORMAT_E_AC3 ∨ config.format = AUDIO_FORMAT_E_AC3_JOC)
    (hr : config.sample_rate < 2 ^ 32) :
    ∃ c : audio_config,
      SpdifStreamOut.eventsSince self
          (SpdifStreamOut.open sink self handle devices config address).2 =
        [Event.sinkOpen handle devices c address] ∧
      c.sample_rate = (4 * config.sample_rate) % 2 ^ 32 ∧
      (c.sample_rate = 4 * config.sample_rate ↔ config.sample_rate < 2 ^ 30) := by
  refine ⟨{ config with
      sample_rate := (config.sample_rate * 4) % 2 ^ 32,
      channel_mask := AUDIO_CHANNEL_OUT_STEREO,
      format := AUDIO_FORMAT_IEC61937 }, ?_, ?_, ?_⟩
  · rw [SpdifStreamOut.open_of_some sink self handle devices config address _ _
      (SpdifStreamOut.resolveDeviceConfig_extended config hf)]
    exact SpdifStreamOut.eventsSince_append _ _ _ rfl
  · show (config.sample_rate * 4) % 2 ^ 32 = (4 * config.sample_rate) % 2 ^ 32
    rw [Nat.mul_comm]
  · show (config.sample_rate * 4) % 2 ^ 32 = 4 * config.sample_rate ↔ _
    constructor
    · intro h
      have := Nat.mod_lt (config.sample_rate * 4) (by norm_num : 0 < 2 ^ 32)
      omega
    · intro h
      rw [Nat.mod_eq_of_lt (by omega)]
      omega

/-- C18 at concrete inputs: 48000 Hz gives 192000, and 2^30 + 1 Hz gives 4. -/
theorem SpdifStreamOut.open_e_ac3_rate_mod_witness :
    (∃ c : audio_config,
      SpdifStreamOut.eventsSince (sampleStream 4096)
          (SpdifStreamOut.open (sampleSink 0 4096) (sampleStream 4096) 1 2
            (sampleConfig AUDIO_FORMAT_E_AC3 1073741825 AUDIO_CHANNEL_OUT_STEREO) "0").2 =
        [Event.sinkOpen 1 2 c "0"] ∧
      c.sample_rate = (4 * 1073741825) % 2 ^ 32 ∧
      (c.sample_rate = 4 * 1073741825 ↔ 1073741825 < 2 ^ 30)) ∧
    (4 * 1073741825) % 2 ^ 32 = 4 :=
  ⟨SpdifStreamOut.open_e_ac3_rate_mod (sampleSink 0 4096) (sampleStream 4096) 1 2
      (sampleConfig AUDIO_FORMAT_E_AC3 1073741825 AUDIO_CHANNEL_OUT_STEREO) "0"
      (Or.inl rfl) (by decide),
   by decide⟩

/-! ## Frame and trace lemmas for the burst writer -/

theorem SpdifStreamOut.sameMembers_refl {σ ε : Type} (a : SpdifStreamOut σ ε) :
    SpdifStreamOut.sameMembers a a :=
  ⟨rfl, rfl, rfl, rfl, rfl, rfl⟩

theorem SpdifStreamOut.sameMembers_trans {σ ε : Type} {a b c : SpdifStreamOut σ ε}
    (h₁ : SpdifStreamOut.sameMembers a b) (h₂ : SpdifStreamOut.sameMembers b c) :
    SpdifStreamOut.sameMembers a c :=
  ⟨h₁.1.trans h₂.1, h₁.2.1.trans h₂.2.1, h₁.2.2.1.trans h₂.2.2.1,
    h₁.2.2.2.1.trans h₂.2.2.2.1, h₁.2.2.2.2.1.trans h₂.2.2.2.2.1,
    h₁.2.2.2.2.2.trans h₂.2.2.2.2.2⟩

theorem SpdifStreamOut.writeDataBurstBody_sameMembers {σ ε : Type} (sink : AudioStreamOut σ)
    (s : BurstLoop σ ε) :
    SpdifStreamOut.sameMembers (SpdifStreamOut.writeDataBurstBody sink s).2.self s.self := by
  by_cases h : min s.leftBytes s.self.mHalBufferSize = 0
  · rw [SpdifStreamOut.writeDataBurstBody_break sink s h]
    exact SpdifStreamOut.sameMembers_refl _
  · rw [SpdifStreamOut.writeDataBurstBody_write sink s (by omega)]
    exact ⟨rfl, rfl, rfl, rfl, rfl, rfl⟩

/-- Whatever the sink does, the loop changes no member of the object but the base-class state
and the log. -/
theorem SpdifStreamOut.writeDataBurstLoop_sameMembers {σ ε : Type} (sink : AudioStreamOut σ) :
    ∀ (n : Nat) (s : BurstLoop σ ε),
      SpdifStreamOut.sameMembers (SpdifStreamOut.writeDataBurstLoop sink n s).self s.self := by
  intro n
  induction n with
  | zero =>
    intro s
    rw [SpdifStreamOut.writeDataBurstLoop_zero]
    exact SpdifStreamOut.writeDataBurstBody_sameMembers sink s
  | succ m ih =>
    intro s
    rw [SpdifStreamOut.writeDataBurstLoop_succ]
    split
    · exact SpdifStreamOut.writeDataBurstBody_sameMembers sink s
    · split
      · exact SpdifStreamOut.sameMembers_trans (ih _)
          (SpdifStreamOut.writeDataBurstBody_sameMembers sink s)
      · exact SpdifStreamOut.writeDataBurstBody_sameMembers sink s

theorem SpdifStreamOut.writeDataBurst_sameMembers {σ ε : Type} (sink : AudioStreamOut σ)
    (self : SpdifStreamOut σ ε) (bytes : Nat) :
    SpdifStreamOut.sameMembers (SpdifStreamOut.writeDataBurst sink self bytes).2 self :=
  SpdifStreamOut.writeDataBurstLoop_sameMembers sink 10
    { self := self, totalBytes := 0, leftBytes := bytes }

/-- One pass of the body over a well-behaved sink, when the chunk to offer is positive and the
byte counts do not overflow: the sink accepts some `k` of the offered bytes, and `k` moves
from `leftBytes` to `totalBytes`. -/
theorem SpdifStreamOut.writeDataBurstBody_accept {σ ε : Type} (sink : AudioStreamOut σ)
    (hw : sink.WellBehaved) (s : BurstLoop σ ε)
    (hs : s.totalBytes + s.leftBytes < SIZE_MOD)
    (h : 0 < min s.leftBytes s.self.mHalBufferSize) :
    ∃ k : Nat, k ≤ min s.leftBytes s.self.mHalBufferSize ∧
      (SpdifStreamOut.writeDataBurstBody sink s).1 = false ∧
      (SpdifStreamOut.writeDataBurstBody sink s).2.totalBytes = s.totalBytes + k ∧
      (SpdifStreamOut.writeDataBurstBody sink s).2.leftBytes = s.leftBytes - k ∧
      (SpdifStreamOut.writeDataBurstBody sink s).2.self.log =
        s.self.log ++
          [Event.sinkWrite s.totalBytes (min s.leftBytes s.self.mHalBufferSize) (k : Int)] ∧
      (sink.write s.self.stream s.totalBytes
        (min s.leftBytes s.self.mHalBufferSize)).1 = (k : Int) := by
  obtain ⟨h0, h1⟩ := hw s.self.stream s.totalBytes (min s.leftBytes s.self.mHalBufferSize)
  obtain ⟨k, hk⟩ := Int.eq_ofNat_of_zero_le h0
  rw [hk] at h1
  have hk1 : k ≤ min s.leftBytes s.self.mHalBufferSize := by exact_mod_cast h1
  have hk2 : k ≤ s.leftBytes := by omega
  have hk3 : toSize (k : Int) = k := by
    rw [toSize_of_nonneg _ (by omega) (by
      have : k < SIZE_MOD := by omega
      exact_mod_cast this)]
    simp
  rw [SpdifStreamOut.writeDataBurstBody_write sink s h]
  refine ⟨k, hk1, rfl, ?_, ?_, ?_, hk⟩
  · dsimp only
    rw [hk, hk3]
    exact Nat.mod_eq_of_lt (by omega)
  · dsimp only
    rw [hk, hk3]
    have : s.leftBytes + SIZE_MOD - k = s.leftBytes - k + SIZE_MOD := by omega
    rw [this, Nat.add_mod_right]
    exact Nat.mod_eq_of_lt (by omega)
  · dsimp only
    rw [hk]

/-- Over a well-behaved sink and without overflow, the writes the loop logs have the shape
`burstTrace`; the loop ends with no byte left or, when the chunk limit is positive, after
exactly `max n 1` writes. -/
theorem SpdifStreamOut.writeDataBurstLoop_trace {σ ε : Type} (sink : AudioStreamOut σ)
    (hw : sink.WellBehaved) :
    ∀ (n : Nat) (s : BurstLoop σ ε), s.totalBytes + s.leftBytes < SIZE_MOD →
      ∃ ws : List Event,
        (SpdifStreamOut.writeDataBurstLoop sink n s).self.log = s.self.log ++ ws ∧
        burstTrace s.self.mHalBufferSize s.totalBytes s.leftBytes ws ∧
        ws.length ≤ max n 1 ∧
        (0 < s.self.mHalBufferSize →
          (SpdifStreamOut.writeDataBurstLoop sink n s).leftBytes = 0 ∨
            ws.length = max n 1) := by
  intro n
  induction n with
  | zero =>
    intro s hs
    rw [SpdifStreamOut.writeDataBurstLoop_zero]
    by_cases h : min s.leftBytes s.self.mHalBufferSize = 0
    · rw [SpdifStreamOut.writeDataBurstBody_break sink s h]
      refine ⟨[], by simp, trivial, by simp, fun hp => Or.inl ?_⟩
      show s.leftBytes = 0
      omega
    · obtain ⟨k, hk, _, _, _, hlog, _⟩ :=
        SpdifStreamOut.writeDataBurstBody_accept sink hw s hs (by omega)
      refine ⟨[_], hlog, ?_, by simp, fun _ => Or.inr (by simp)⟩
      exact ⟨rfl, rfl, by omega, Int.ofNat_nonneg _, by exact_mod_cast hk, trivial⟩
  | succ m ih =>
    intro s hs
    by_cases h : min s.leftBytes s.self.mHalBufferSize = 0
    · rw [SpdifStreamOut.writeDataBurstLoop_break sink _ s h]
      refine ⟨[], by simp, trivial, by simp, fun hp => Or.inl ?_⟩
      omega
    · obtain ⟨k, hk, hb, ht, hl, hlog, _⟩ :=
        SpdifStreamOut.writeDataBurstBody_accept sink hw s hs (by omega)
      have hm := (SpdifStreamOut.writeDataBurstBody_sameMembers sink s).2.2.2.2.2
      rw [SpdifStreamOut.writeDataBurstLoop_succ, hb]
      simp only [Bool.false_eq_true, if_false]
      have hfirst : burstTrace s.self.mHalBufferSize s.totalBytes s.leftBytes
          [Event.sinkWrite s.totalBytes (min s.leftBytes s.self.mHalBufferSize) (k : Int)] :=
        ⟨rfl, rfl, by omega, Int.ofNat_nonneg _, by exact_mod_cast hk, trivial⟩
      split
      · rename_i hc
        obtain ⟨ws, hlog₂, htr, hlen, hend⟩ :=
          ih (SpdifStreamOut.writeDataBurstBody sink s).2 (by rw [ht, hl]; omega)
        rw [hm, ht, hl] at htr
        rw [hm] at hend
        refine ⟨Event.sinkWrite s.totalBytes (min s.leftBytes s.self.mHalBufferSize)
          (k : Int) :: ws, ?_, ?_, ?_, ?_⟩
        · rw [hlog₂, hlog]; simp
        · exact ⟨rfl, rfl, by omega, Int.ofNat_nonneg _, by exact_mod_cast hk,
            by simpa using htr⟩
        · have := hc.1
          simp only [List.length_cons]
          omega
        · intro hp
          have := hc.1
          rcases hend hp with h1 | h1
          · exact Or.inl h1
          · refine Or.inr ?_
            simp only [List.length_cons]
            omega
      · rename_i hc
        refine ⟨[_], hlog, hfirst, by simp, fun _ => ?_⟩
        by_cases hm0 : 0 < m
        · refine Or.inl ?_
          have : ¬ (SpdifStreamOut.writeDataBurstBody sink s).2.leftBytes > 0 :=
            fun hgt => hc ⟨hm0, hgt⟩
          omega
        · refine Or.inr ?_
          have : m = 0 := by omega
          simp [this]

theorem burstTrace_all_writes (hal : Nat) :
    ∀ (ws : List Event) (total left : Nat), burstTrace hal total left ws →
      ∀ e ∈ ws, ∃ (offset size : Nat) (ret : Int), e = Event.sinkWrite offset size ret := by
  intro ws
  induction ws with
  | nil => intro _ _ _ e he; cases he
  | cons w rest ih =>
    intro total left h e he
    cases w with
    | sinkWrite offset size ret =>
      rcases List.mem_cons.1 he with h1 | h1
      · exact ⟨offset, size, ret, h1⟩
      · exact ih _ _ h.2.2.2.2.2 e h1
    | sinkOpen _ _ _ _ => exact absurd h (by simp [burstTrace])
    | sinkFlush => exact absurd h (by simp [burstTrace])
    | sinkStandby => exact absurd h (by simp [burstTrace])
    | encoderReset => exact absurd h (by simp [burstTrace])
    | encoderWrite _ => exact absurd h (by simp [burstTrace])

theorem burstTrace_filter (hal : Nat) (ws : List Event) (total left : Nat)
    (h : burstTrace hal total left ws) : ws.filter Event.isSinkWrite = ws := by
  apply List.filter_eq_self.2
  intro e he
  obtain ⟨o, n, r, rfl⟩ := burstTrace_all_writes hal ws total left h e he
  rfl

/-- In a trace of the loop, the write that follows the writes `pre` starts at the offset
`total + a` and offers `min (left - a) hal` bytes, where `a` is what `pre` accepted. -/
theorem burstTrace_split (hal : Nat) :
    ∀ (pre : List Event) (total left offset size : Nat) (ret : Int) (post : List Event),
      burstTrace hal total left (pre ++ Event.sinkWrite offset size ret :: post) →
      ∃ a : Nat, acceptedSum pre = (a : Int) ∧ a < left ∧ offset = total + a ∧
        size = min (left - a) hal ∧ 0 < size ∧ 0 ≤ ret ∧ ret ≤ (size : Int) := by
  intro pre
  induction pre with
  | nil =>
    intro total left offset size ret post h
    simp only [List.nil_append, burstTrace] at h
    obtain ⟨h1, h2, h3, h4, h5, _⟩ := h
    refine ⟨0, by simp [acceptedSum], by omega, by omega, by simpa using h2, h3, h4, h5⟩
  | cons w rest ih =>
    intro total left offset size ret post h
    cases w with
    | sinkWrite o n r =>
      simp only [List.cons_append, burstTrace] at h
      obtain ⟨_, h2, h3, h4, h5, h6⟩ := h
      obtain ⟨a, ha, hlt, hoff, hsize, hpos, hr0, hr1⟩ := ih _ _ _ _ _ _ h6
      have hr : (r.toNat : Int) = r := Int.toNat_of_nonneg h4
      have hrn : r.toNat ≤ n := by
        have : (r.toNat : Int) ≤ (n : Int) := by rw [hr]; exact h5
        exact_mod_cast this
      refine ⟨r.toNat + a, ?_, by omega, by omega, ?_, hpos, hr0, hr1⟩
      · simp only [acceptedSum, ha]
        push_cast
        rw [hr]
      · rw [hsize]
        congr 1
        omega
    | sinkOpen _ _ _ _ => exact absurd h (by simp [burstTrace])
    | sinkFlush => exact absurd h (by simp [burstTrace])
    | sinkStandby => exact absurd h (by simp [burstTrace])
    | encoderReset => exact absurd h (by simp [burstTrace])
    | encoderWrite _ => exact absurd h (by simp [burstTrace])

theorem burstTrace_sum_le (hal : Nat) :
    ∀ (ws : List Event) (total left : Nat), burstTrace hal total left ws →
      0 ≤ acceptedSum ws ∧ acceptedSum ws ≤ ((ws.length * hal : Nat) : Int) := by
  intro ws
  induction ws with
  | nil => intro _ _ _; simp [acceptedSum]
  | cons w rest ih =>
    intro total left h
    cases w with
    | sinkWrite o n r =>
      simp only [burstTrace] at h
      obtain ⟨_, h2, _, h4, h5, h6⟩ := h
      obtain ⟨i0, i1⟩ := ih _ _ h6
      have hn : (n : Int) ≤ (hal : Int) := by
        have : n ≤ hal := by omega
        exact_mod_cast this
      simp only [acceptedSum, List.length_cons]
      push_cast at i1 ⊢
      constructor
      · omega
      · nlinarith
    | sinkOpen _ _ _ _ => exact absurd h (by simp [burstTrace])
    | sinkFlush => exact absurd h (by simp [burstTrace])
    | sinkStandby => exact absurd h (by simp [burstTrace])
    | encoderReset => exact absurd h (by simp [burstTrace])
    | encoderWrite _ => exact absurd h (by simp [burstTrace])

/-- The bytes accepted along a trace of the loop are consecutive: together they are the
stretch of the buffer that starts at `total` and has the length of the accepted sum. -/
theorem burstTrace_acceptedBytes {α : Type} (buffer : List α) (hal : Nat) :
    ∀ (ws : List Event) (total left : Nat), burstTrace hal total left ws →
      acceptedBytes buffer ws = (buffer.drop total).take (acceptedSum ws).toNat := by
  intro ws
  induction ws with
  | nil => intro _ _ _; simp [acceptedBytes, acceptedSum]
  | cons w rest ih =>
    intro total left h
    cases w with
    | sinkWrite o n r =>
      simp only [burstTrace] at h
      obtain ⟨h1, _, _, h4, _, h6⟩ := h
      obtain ⟨i0, _⟩ := burstTrace_sum_le hal _ _ _ h6
      have hsum : (r + acceptedSum rest).toNat = r.toNat + (acceptedSum rest).toNat :=
        Int.toNat_add h4 i0
      simp only [acceptedBytes, acceptedSum]
      rw [ih _ _ h6, hsum, h1, List.take_add, List.drop_drop]
    | sinkOpen _ _ _ _ => exact absurd h (by simp [burstTrace])
    | sinkFlush => exact absurd h (by simp [burstTrace])
    | sinkStandby => exact absurd h (by simp [burstTrace])
    | encoderReset => exact absurd h (by simp [burstTrace])
    | encoderWrite _ => exact absurd h (by simp [burstTrace])

/-- One call of `writeDataBurst` over a well-behaved sink, for a `size_t` byte count: the
logged writes form a trace of the loop started at total 0 with `bytes` left, and the final
values of `totalBytes` and `leftBytes` add up to `bytes`. -/
theorem SpdifStreamOut.writeDataBurst_trace {σ ε : Type} (sink : AudioStreamOut σ)
    (hw : sink.WellBehaved) (self : SpdifStreamOut σ ε) (bytes : Nat)
    (hb : bytes < SIZE_MOD) :
    burstTrace self.mHalBufferSize 0 bytes
      (SpdifStreamOut.eventsSince self (SpdifStreamOut.writeDataBurst sink self bytes).2) ∧
    (SpdifStreamOut.eventsSince self
      (SpdifStreamOut.writeDataBurst sink self bytes).2).length ≤ 10 ∧
    ∃ total left : Nat,
      (SpdifStreamOut.writeDataBurst sink self bytes).1 = toSsize total ∧
      (total : Int) = acceptedSum (SpdifStreamOut.eventsSince self
        (SpdifStreamOut.writeDataBurst sink self bytes).2) ∧
      total + left = bytes ∧
      (0 < self.mHalBufferSize → left = 0 ∨ (SpdifStreamOut.eventsSince self
        (SpdifStreamOut.writeDataBurst sink self bytes).2).length = 10) := by
  have h0 : (0 : Nat) + bytes < SIZE_MOD := by omega
  obtain ⟨ws, hlog, htr, hlen, hend⟩ := SpdifStreamOut.writeDataBurstLoop_trace sink hw 10
    ({ self := self, totalBytes := 0, leftBytes := bytes } : BurstLoop σ ε) h0
  obtain ⟨ws₂, hlog₂, hsum, hinv⟩ := SpdifStreamOut.writeDataBurstLoop_accepted sink hw 10
    ({ self := self, totalBytes := 0, leftBytes := bytes } : BurstLoop σ ε) h0
  have hws : ws₂ = ws := List.append_cancel_left (hlog₂.symm.trans hlog)
  subst hws
  have hlog3 : (SpdifStreamOut.writeDataBurst sink self bytes).2.log = self.log ++ ws₂ := hlog
  rw [SpdifStreamOut.eventsSince_append self _ ws₂ hlog3]
  refine ⟨htr, by simpa using hlen,
    (SpdifStreamOut.writeDataBurstLoop sink 10
      ({ self := self, totalBytes := 0, leftBytes := bytes } : BurstLoop σ ε)).totalBytes,
    (SpdifStreamOut.writeDataBurstLoop sink 10
      ({ self := self, totalBytes := 0, leftBytes := bytes } : BurstLoop σ ε)).leftBytes,
    rfl, ?_, ?_, ?_⟩
  · simpa using hsum
  · simpa using hinv
  · intro hp
    simpa using hend hp

theorem AudioStreamOut.AcceptsAll.wellBehaved {σ : Type} {sink : AudioStreamOut σ}
    (ha : sink.AcceptsAll) : sink.WellBehaved := by
  intro s offset size
  rw [ha s offset size]
  exact ⟨Int.ofNat_nonneg _, le_refl _⟩

/-- Over a sink that accepts everything, the loop entered with `maxCount = n` delivers what is
left, up to `max n 1` chunks of the chunk limit. -/
theorem SpdifStreamOut.writeDataBurstLoop_acceptsAll {σ ε : Type} (sink : AudioStreamOut σ)
    (ha : sink.AcceptsAll) :
    ∀ (n : Nat) (s : BurstLoop σ ε), s.totalBytes + s.leftBytes < SIZE_MOD →
      (SpdifStreamOut.writeDataBurstLoop sink n s).totalBytes =
        s.totalBytes + min s.leftBytes (max n 1 * s.self.mHalBufferSize) := by
  have brk : ∀ (n : Nat) (s : BurstLoop σ ε), min s.leftBytes s.self.mHalBufferSize = 0 →
      s.totalBytes = s.totalBytes + min s.leftBytes (max n 1 * s.self.mHalBufferSize) := by
    intro n s h
    have : s.leftBytes = 0 ∨ s.self.mHalBufferSize = 0 := by omega
    rcases this with h1 | h1 <;> simp [h1]
  intro n
  induction n with
  | zero =>
    intro s hs
    by_cases h : min s.leftBytes s.self.mHalBufferSize = 0
    · rw [SpdifStreamOut.writeDataBurstLoop_break sink _ s h]
      exact brk 0 s h
    · obtain ⟨k, _, _, ht, _, _, hret⟩ :=
        SpdifStreamOut.writeDataBurstBody_accept sink ha.wellBehaved s hs (by omega)
      have hk : k = min s.leftBytes s.self.mHalBufferSize := by
        have := hret.symm.trans (ha _ _ _)
        exact_mod_cast this
      rw [SpdifStreamOut.writeDataBurstLoop_zero, ht, hk]
      simp
  | succ m ih =>
    intro s hs
    by_cases h : min s.leftBytes s.self.mHalBufferSize = 0
    · rw [SpdifStreamOut.writeDataBurstLoop_break sink _ s h]
      exact brk (m + 1) s h
    · obtain ⟨k, _, hb, ht, hl, _, hret⟩ :=
        SpdifStreamOut.writeDataBurstBody_accept sink ha.wellBehaved s hs (by omega)
      have hk : k = min s.leftBytes s.self.mHalBufferSize := by
        have := hret.symm.trans (ha _ _ _)
        exact_mod_cast this
      have hm := (SpdifStreamOut.writeDataBurstBody_sameMembers sink s).2.2.2.2.2
      have e2 : max (m + 1) 1 = m + 1 := by omega
      rw [SpdifStreamOut.writeDataBurstLoop_succ, hb]
      simp only [Bool.false_eq_true, if_false]
      split
      · rename_i hc
        have e1 : max m 1 = m := by have := hc.1; omega
        have hl0 := hc.2
        rw [ih _ (by rw [ht, hl]; omega), ht, hl, hm, e1, e2, Nat.succ_mul]
        rw [hl] at hl0
        generalize m * s.self.mHalBufferSize = p
        omega
      · rename_i hc
        rw [ht, e2, Nat.succ_mul]
        by_cases hm0 : m = 0
        · subst hm0
          simp only [Nat.zero_mul, Nat.zero_add]
          omega
        · have hl0 : ¬ (SpdifStreamOut.writeDataBurstBody sink s).2.leftBytes > 0 :=
            fun hgt => hc ⟨by omega, hgt⟩
          rw [hl] at hl0
          generalize m * s.self.mHalBufferSize = p
          omega

/-- Whatever the encoder and the sink do, one call of the encoder, with its bursts written
through `writeDataBurst`, leaves the application properties, the rate multiplier and the chunk
limit as they were. -/
theorem SpdifStreamOut.runEncoder_frame {σ ε : Type} (sink : AudioStreamOut σ) :
    ∀ (run : EncoderRun ε) (self : SpdifStreamOut σ ε),
      (SpdifStreamOut.runEncoder sink run self).2.mApplicationFormat =
        self.mApplicationFormat ∧
      (SpdifStreamOut.runEncoder sink run self).2.mApplicationSampleRate =
        self.mApplicationSampleRate ∧
      (SpdifStreamOut.runEncoder sink run self).2.mApplicationChannelMask =
        self.mApplicationChannelMask := by
  intro run
  induction run with
  | done ret next => intro self; exact ⟨rfl, rfl, rfl⟩
  | burst bytes k ih =>
    intro self
    have hw := SpdifStreamOut.writeDataBurst_sameMembers sink self bytes
    have hrec := ih (SpdifStreamOut.writeDataBurst sink self bytes).1
      (SpdifStreamOut.writeDataBurst sink self bytes).2
    simp only [SpdifStreamOut.runEncoder]
    exact ⟨hrec.1.trans hw.2.1, hrec.2.1.trans hw.2.2.1, hrec.2.2.trans hw.2.2.2.1⟩

theorem SpdifStreamOut.applyOperation_frame {σ ε : Type} (sink : AudioStreamOut σ)
    (encoder : SPDIFEncoder ε) (self : SpdifStreamOut σ ε) (op : Operation) :
    (SpdifStreamOut.applyOperation sink encoder self op).mApplicationFormat =
      self.mApplicationFormat ∧
    (SpdifStreamOut.applyOperation sink encoder self op).mApplicationSampleRate =
      self.mApplicationSampleRate ∧
    (SpdifStreamOut.applyOperation sink encoder self op).mApplicationChannelMask =
      self.mApplicationChannelMask := by
  cases op with
  | write numBytes =>
    exact SpdifStreamOut.runEncoder_frame sink (encoder.write self.mSpdifEncoder numBytes)
      { self with log := self.log ++ [Event.encoderWrite numBytes] }
  | writeDataBurst bytes =>
    have hw := SpdifStreamOut.writeDataBurst_sameMembers sink self bytes
    exact ⟨hw.2.1, hw.2.2.1, hw.2.2.2.1⟩
  | flush => exact ⟨rfl, rfl, rfl⟩
  | standby => exact ⟨rfl, rfl, rfl⟩
  | getAudioProperties => exact ⟨rfl, rfl, rfl⟩

theorem sampleSink_wellBehaved (status : Int) (cap : Nat) :
    (sampleSink status cap).WellBehaved := by
  intro s offset size
  simp only [sampleSink]
  exact ⟨Int.ofNat_nonneg _, Int.ofNat_le.2 (Nat.min_le_left _ _)⟩

theorem acceptingSink_acceptsAll : acceptingSink.AcceptsAll := by
  intro s offset size
  rfl

/-! ## The application config is immutable after `open` -/

/-- C12: whatever the sink and the encoder do, and for every argument, each of `write`,
`writeDataBurst`, `flush`, `standby` and `getAudioProperties` leaves the stored application
format, sample rate and channel mask unchanged; so after any sequence of these operations
`getAudioProperties` returns what it returned before, and after `open(config)` followed by
any such sequence it returns the format, rate and mask of `config`. -/
theorem SpdifStreamOut.application_config_immutable {σ ε : Type} (sink : AudioStreamOut σ)
    (encoder : SPDIFEncoder ε) (ops : List Operation) (self : SpdifStreamOut σ ε) :
    ((SpdifStreamOut.applyOperations sink encoder ops self).mApplicationFormat =
        self.mApplicationFormat ∧
      (SpdifStreamOut.applyOperations sink encoder ops self).mApplicationSampleRate =
        self.mApplicationSampleRate ∧
      (SpdifStreamOut.applyOperations sink encoder ops self).mApplicationChannelMask =
        self.mApplicationChannelMask) ∧
    SpdifStreamOut.getAudioProperties (SpdifStreamOut.applyOperations sink encoder ops self) =
      SpdifStreamOut.getAudioProperties self ∧
    ∀ (handle devices : Nat) (config : audio_config) (address : String),
      SpdifStreamOut.getAudioProperties (SpdifStreamOut.applyOperations sink encoder ops
          (SpdifStreamOut.open sink self handle devices config address).2) =
        { sample_rate := config.sample_rate,
          channel_mask := config.channel_mask,
          format := config.format } := by
  have frame : ∀ (ops : List Operation) (self : SpdifStreamOut σ ε),
      (SpdifStreamOut.applyOperations sink encoder ops self).mApplicationFormat =
        self.mApplicationFormat ∧
      (SpdifStreamOut.applyOperations sink encoder ops self).mApplicationSampleRate =
        self.mApplicationSampleRate ∧
      (SpdifStreamOut.applyOperations sink encoder ops self).mApplicationChannelMask =
        self.mApplicationChannelMask := by
    intro ops
    induction ops with
    | nil => intro self; exact ⟨rfl, rfl, rfl⟩
    | cons op rest ih =>
      intro self
      have h₁ := SpdifStreamOut.applyOperation_frame sink encoder self op
      have h₂ := ih (SpdifStreamOut.applyOperation sink encoder self op)
      simp only [SpdifStreamOut.applyOperations]
      exact ⟨h₂.1.trans h₁.1, h₂.2.1.trans h₁.2.1, h₂.2.2.trans h₁.2.2⟩
  have query : ∀ a b : SpdifStreamOut σ ε,
      a.mApplicationFormat = b.mApplicationFormat ∧
      a.mApplicationSampleRate = b.mApplicationSampleRate ∧
      a.mApplicationChannelMask = b.mApplicationChannelMask →
      SpdifStreamOut.getAudioProperties a = SpdifStreamOut.getAudioProperties b := by
    intro a b h
    simp only [SpdifStreamOut.getAudioProperties, h.1, h.2.1, h.2.2]
  refine ⟨frame ops self, query _ _ (frame ops self), ?_⟩
  intro handle devices config address
  rw [query _ _ (frame ops _)]
  cases hr : SpdifStreamOut.resolveDeviceConfig config with
  | none =>
    rw [SpdifStreamOut.open_of_none sink self handle devices config address hr]
    rfl
  | some mc =>
    obtain ⟨m, c⟩ := mc
    rw [SpdifStreamOut.open_of_some sink self handle devices config address m c hr]
    rfl

/-- C12 at a concrete input: after opening with AC3 / 48000 / stereo, a write that emits a
burst, a direct burst, a flush, a standby, a query and another write leave the query at
AC3 / 48000 / stereo. -/
theorem SpdifStreamOut.application_config_immutable_witness :
    SpdifStreamOut.getAudioProperties
        (SpdifStreamOut.applyOperations (sampleSink 0 3) burstingEncoder
          [Operation.write 5, Operation.writeDataBurst 8, Operation.flush, Operation.standby,
            Operation.getAudioProperties, Operation.write 3]
          (SpdifStreamOut.open (sampleSink 0 3) (sampleStream 4) 1 2
            (sampleConfig AUDIO_FORMAT_AC3 48000 AUDIO_CHANNEL_OUT_STEREO) "0").2) =
      { sample_rate := 48000, channel_mask := AUDIO_CHANNEL_OUT_STEREO,
        format := AUDIO_FORMAT_AC3 } :=
  (SpdifStreamOut.application_config_immutable (sampleSink 0 3) burstingEncoder
    [Operation.write 5, Operation.writeDataBurst 8, Operation.flush, Operation.standby,
      Operation.getAudioProperties, Operation.write 3] (sampleStream 4)).2.2 1 2
    (sampleConfig AUDIO_FORMAT_AC3 48000 AUDIO_CHANNEL_OUT_STEREO) "0"

/-! ## The burst writer over a well-behaved sink -/

/-- C13: for every buffer length (a `size_t`), every chunk limit and every sink that accepts
between 0 and the offered count on each call, every call logged by `writeDataBurst` is a sink
write, and the size offered on each attempt is the minimum of the bytes still remaining (the
length less what the earlier attempts accepted) and the chunk limit; hence it is at least 1,
at most the chunk limit, and at most the bytes not yet accepted. -/
theorem SpdifStreamOut.writeDataBurst_offered_sizes {σ ε : Type} (sink : AudioStreamOut σ)
    (self : SpdifStreamOut σ ε) (bytes : Nat) (hw : sink.WellBehaved)
    (hb : bytes < SIZE_MOD) :
    (∀ e ∈ SpdifStreamOut.eventsSince self (SpdifStreamOut.writeDataBurst sink self bytes).2,
      e.isSinkWrite = true) ∧
    ∀ (pre post : List Event) (offset size : Nat) (ret : Int),
      SpdifStreamOut.eventsSince self (SpdifStreamOut.writeDataBurst sink self bytes).2 =
        pre ++ Event.sinkWrite offset size ret :: post →
      (size : Int) = min ((bytes : Int) - acceptedSum pre) (self.mHalBufferSize : Int) ∧
      1 ≤ size ∧ size ≤ self.mHalBufferSize ∧
      (size : Int) ≤ (bytes : Int) - acceptedSum pre := by
  obtain ⟨htr, _, _⟩ := SpdifStreamOut.writeDataBurst_trace sink hw self bytes hb
  constructor
  · intro e he
    obtain ⟨o, n, r, rfl⟩ := burstTrace_all_writes _ _ _ _ htr e he
    rfl
  · intro pre post offset size ret heq
    rw [heq] at htr
    obtain ⟨a, ha, hlt, _, hsize, hpos, _, _⟩ := burstTrace_split _ _ _ _ _ _ _ _ htr
    rw [ha]
    omega

/-- C13 at a concrete input: 100 bytes, chunk limit 4, a sink that accepts at most 3 bytes a
call; the second attempt, made after 3 bytes were accepted, offers 4 = min (100 - 3, 4). -/
theorem SpdifStreamOut.writeDataBurst_offered_sizes_witness :
    (sampleSink 0 3).WellBehaved ∧ 100 < SIZE_MOD ∧
    SpdifStreamOut.eventsSince (sampleStream 4)
        (SpdifStreamOut.writeDataBurst (sampleSink 0 3) (sampleStream 4) 100).2 =
      [Event.sinkWrite 0 4 3] ++ Event.sinkWrite 3 4 3 ::
        (List.range 8).map (fun i => Event.sinkWrite (6 + 3 * i) 4 3) ∧
    ((4 : Nat) : Int) = min (((100 : Nat) : Int) - acceptedSum [Event.sinkWrite 0 4 3])
      (((sampleStream 4).mHalBufferSize : Nat) : Int) ∧
    1 ≤ 4 ∧ 4 ≤ (sampleStream 4).mHalBufferSize ∧
    ((4 : Nat) : Int) ≤ ((100 : Nat) : Int) - acceptedSum [Event.sinkWrite 0 4 3] :=
  ⟨sampleSink_wellBehaved 0 3, by decide, by decide,
   (SpdifStreamOut.writeDataBurst_offered_sizes (sampleSink 0 3) (sampleStream 4) 100
      (sampleSink_wellBehaved 0 3) (by decide)).2 [Event.sinkWrite 0 4 3]
      ((List.range 8).map (fun i => Event.sinkWrite (6 + 3 * i) 4 3)) 3 4 3 (by decide)⟩

/-- C14, as amended: for every buffer length `bytes` (any `size_t`), every chunk limit
greater than 0 and every sink that accepts between 0 and the offered count on each call,
`writeDataBurst` stops only when no bytes remain or when the budget of 10 attempts is used up:
if the sum of the accepted sizes is less than `bytes` then exactly 10 sink writes were made;
hence, whenever that sum is at most SSIZE_MAX (in particular whenever `bytes` is at most
SSIZE_MAX), so that the return value is that sum, a return value less than `bytes` means that
exactly 10 sink writes were made; and before every sink write the total accepted so far is
below `bytes`. -/
theorem SpdifStreamOut.writeDataBurst_stops_when_done_or_exhausted {σ ε : Type}
    (sink : AudioStreamOut σ) (self : SpdifStreamOut σ ε) (bytes : Nat)
    (hw : sink.WellBehaved) (hpos : 0 < self.mHalBufferSize) (hb : bytes < SIZE_MOD) :
    (acceptedSum (SpdifStreamOut.eventsSince self
        (SpdifStreamOut.writeDataBurst sink self bytes).2) < (bytes : Int) →
      ((SpdifStreamOut.eventsSince self
        (SpdifStreamOut.writeDataBurst sink self bytes).2).filter
          Event.isSinkWrite).length = 10) ∧
    (acceptedSum (SpdifStreamOut.eventsSince self
        (SpdifStreamOut.writeDataBurst sink self bytes).2) ≤ (SSIZE_MAX : Int) →
      (SpdifStreamOut.writeDataBurst sink self bytes).1 < (bytes : Int) →
      ((SpdifStreamOut.eventsSince self
        (SpdifStreamOut.writeDataBurst sink self bytes).2).filter
          Event.isSinkWrite).length = 10) ∧
    (bytes ≤ SSIZE_MAX →
      (SpdifStreamOut.writeDataBurst sink self bytes).1 < (bytes : Int) →
      ((SpdifStreamOut.eventsSince self
        (SpdifStreamOut.writeDataBurst sink self bytes).2).filter
          Event.isSinkWrite).length = 10) ∧
    ∀ (pre post : List Event) (e : Event),
      SpdifStreamOut.eventsSince self (SpdifStreamOut.writeDataBurst sink self bytes).2 =
        pre ++ e :: post →
      acceptedSum pre < (bytes : Int) := by
  obtain ⟨htr, _, total, left, hret, hsum, hinv, hend⟩ :=
    SpdifStreamOut.writeDataBurst_trace sink hw self bytes hb
  have key : total < bytes →
      ((SpdifStreamOut.eventsSince self
        (SpdifStreamOut.writeDataBurst sink self bytes).2).filter
          Event.isSinkWrite).length = 10 := by
    intro hlt
    rw [burstTrace_filter _ _ _ _ htr]
    rcases hend hpos with h | h
    · omega
    · exact h
  refine ⟨?_, ?_, ?_, ?_⟩
  · intro hlt
    rw [← hsum] at hlt
    exact key (by exact_mod_cast hlt)
  · intro hmax hlt
    rw [← hsum] at hmax
    rw [hret, toSsize_of_le _ (by exact_mod_cast hmax)] at hlt
    exact key (by exact_mod_cast hlt)
  · intro hmax hlt
    rw [hret, toSsize_of_le _ (by omega)] at hlt
    exact key (by exact_mod_cast hlt)
  · intro pre post e heq
    have hmem : e ∈ SpdifStreamOut.eventsSince self
        (SpdifStreamOut.writeDataBurst sink self bytes).2 := by
      rw [heq]; simp
    obtain ⟨o, n, r, rfl⟩ := burstTrace_all_writes _ _ _ _ htr e hmem
    rw [heq] at htr
    obtain ⟨a, ha, hlt, _⟩ := burstTrace_split _ _ _ _ _ _ _ _ htr
    rw [ha]
    exact_mod_cast hlt

/-- C14 at a concrete input: 100 bytes, chunk limit 4, a sink that accepts at most 3 bytes a
call: 30 < 100 is returned, after exactly 10 sink writes. -/
theorem SpdifStreamOut.writeDataBurst_stops_when_done_or_exhausted_witness :
    (sampleSink 0 3).WellBehaved ∧ 0 < (sampleStream 4).mHalBufferSize ∧ 100 < SIZE_MOD ∧
    (SpdifStreamOut.writeDataBurst (sampleSink 0 3) (sampleStream 4) 100).1 = 30 ∧
    ((SpdifStreamOut.eventsSince (sampleStream 4)
      (SpdifStreamOut.writeDataBurst (sampleSink 0 3) (sampleStream 4) 100).2).filter
        Event.isSinkWrite).length = 10 :=
  ⟨sampleSink_wellBehaved 0 3, by decide, by decide, by decide,
   (SpdifStreamOut.writeDataBurst_stops_when_done_or_exhausted (sampleSink 0 3)
      (sampleStream 4) 100 (sampleSink_wellBehaved 0 3) (by decide) (by decide)).2.2.1
      (by decide) (by decide)⟩

/-- C14, the claim as stated fails: for a buffer of 2^63 + 5 bytes, chunk limit 2^62 and a
sink that accepts every byte offered, the call returns -9223372036854775803, which is less
than the buffer length, after 3 sink writes and not 10. -/
theorem SpdifStreamOut.writeDataBurst_short_return_after_three_writes :
    acceptingSink.WellBehaved ∧ 0 < (sampleStream 4611686018427387904).mHalBufferSize ∧
    (SpdifStreamOut.writeDataBurst acceptingSink (sampleStream 4611686018427387904)
      9223372036854775813).1 < ((9223372036854775813 : Nat) : Int) ∧
    ((SpdifStreamOut.eventsSince (sampleStream 4611686018427387904)
      (SpdifStreamOut.writeDataBurst acceptingSink (sampleStream 4611686018427387904)
        9223372036854775813).2).filter Event.isSinkWrite).length = 3 :=
  ⟨acceptingSink_acceptsAll.wellBehaved, by decide, by decide, by decide⟩

/-- C15, as amended: for every buffer of at least `bytes` bytes (`bytes` any `size_t`) and
every sink that accepts between 0 and the offered count on each call, each attempt of
`writeDataBurst` is handed the buffer at the offset equal to the total accepted by all earlier
attempts; and the byte ranges the sink accepted, concatenated in call order, are exactly the
first bytes of the buffer, as many as the sum of the accepted sizes; that number is the return
value whenever the sum is at most SSIZE_MAX, in particular whenever `bytes` is at most
SSIZE_MAX. -/
theorem SpdifStreamOut.writeDataBurst_delivers_initial_segment {σ ε α : Type}
    (sink : AudioStreamOut σ) (self : SpdifStreamOut σ ε) (bytes : Nat) (buffer : List α)
    (hw : sink.WellBehaved) (hb : bytes < SIZE_MOD) (hlen : bytes ≤ buffer.length) :
    (∀ (pre post : List Event) (offset size : Nat) (ret : Int),
      SpdifStreamOut.eventsSince self (SpdifStreamOut.writeDataBurst sink self bytes).2 =
        pre ++ Event.sinkWrite offset size ret :: post →
      (offset : Int) = acceptedSum pre) ∧
    (acceptedBytes buffer (SpdifStreamOut.eventsSince self
        (SpdifStreamOut.writeDataBurst sink self bytes).2) =
      buffer.take (acceptedSum (SpdifStreamOut.eventsSince self
        (SpdifStreamOut.writeDataBurst sink self bytes).2)).toNat ∧
     (acceptedBytes buffer (SpdifStreamOut.eventsSince self
        (SpdifStreamOut.writeDataBurst sink self bytes).2)).length =
      (acceptedSum (SpdifStreamOut.eventsSince self
        (SpdifStreamOut.writeDataBurst sink self bytes).2)).toNat) ∧
    (acceptedSum (SpdifStreamOut.eventsSince self
        (SpdifStreamOut.writeDataBurst sink self bytes).2) ≤ (SSIZE_MAX : Int) →
      acceptedBytes buffer (SpdifStreamOut.eventsSince self
          (SpdifStreamOut.writeDataBurst sink self bytes).2) =
        buffer.take (SpdifStreamOut.writeDataBurst sink self bytes).1.toNat ∧
      (acceptedBytes buffer (SpdifStreamOut.eventsSince self
          (SpdifStreamOut.writeDataBurst sink self bytes).2)).length =
        (SpdifStreamOut.writeDataBurst sink self bytes).1.toNat) ∧
    (bytes ≤ SSIZE_MAX →
      acceptedBytes buffer (SpdifStreamOut.eventsSince self
          (SpdifStreamOut.writeDataBurst sink self bytes).2) =
        buffer.take (SpdifStreamOut.writeDataBurst sink self bytes).1.toNat ∧
      (acceptedBytes buffer (SpdifStreamOut.eventsSince self
          (SpdifStreamOut.writeDataBurst sink self bytes).2)).length =
        (SpdifStreamOut.writeDataBurst sink self bytes).1.toNat) := by
  obtain ⟨htr, _, total, left, hret, hsum, hinv, _⟩ :=
    SpdifStreamOut.writeDataBurst_trace sink hw self bytes hb
  have hbytes := burstTrace_acceptedBytes buffer _ _ _ _ htr
  rw [← hsum] at hbytes ⊢
  simp only [Int.toNat_ofNat, List.drop_zero] at hbytes ⊢
  have hlen2 : (buffer.take total).length = total := by
    rw [List.length_take]
    omega
  have key : total ≤ SSIZE_MAX →
      acceptedBytes buffer (SpdifStreamOut.eventsSince self
          (SpdifStreamOut.writeDataBurst sink self bytes).2) =
        buffer.take (SpdifStreamOut.writeDataBurst sink self bytes).1.toNat ∧
      (acceptedBytes buffer (SpdifStreamOut.eventsSince self
          (SpdifStreamOut.writeDataBurst sink self bytes).2)).length =
        (SpdifStreamOut.writeDataBurst sink self bytes).1.toNat := by
    intro h
    have hret2 : (SpdifStreamOut.writeDataBurst sink self bytes).1.toNat = total := by
      rw [hret, toSsize_of_le _ h]
      simp
    rw [hret2, hbytes]
    exact ⟨rfl, hlen2⟩
  refine ⟨?_, ⟨hbytes, by rw [hbytes]; exact hlen2⟩, ?_, ?_⟩
  · intro pre post offset size ret heq
    rw [heq] at htr
    obtain ⟨a, ha, _, hoff, _⟩ := burstTrace_split _ _ _ _ _ _ _ _ htr
    rw [ha, hoff]
    simp
  · intro h
    exact key (by exact_mod_cast h)
  · intro h
    exact key (by omega)

/-- C15 at a concrete input: the buffer 0, 1, ..., 99, chunk limit 4, a sink that accepts at
most 3 bytes a call: the sink received 0, 1, ..., 29 in order, and 30 is returned. -/
theorem SpdifStreamOut.writeDataBurst_delivers_initial_segment_witness :
    (sampleSink 0 3).WellBehaved ∧ 100 < SIZE_MOD ∧ 100 ≤ (List.range 100).length ∧
    (SpdifStreamOut.writeDataBurst (sampleSink 0 3) (sampleStream 4) 100).1 = 30 ∧
    acceptedBytes (List.range 100) (SpdifStreamOut.eventsSince (sampleStream 4)
        (SpdifStreamOut.writeDataBurst (sampleSink 0 3) (sampleStream 4) 100).2) =
      (List.range 100).take
        (SpdifStreamOut.writeDataBurst (sampleSink 0 3) (sampleStream 4) 100).1.toNat :=
  ⟨sampleSink_wellBehaved 0 3, by decide, by decide, by decide,
   ((SpdifStreamOut.writeDataBurst_delivers_initial_segment (sampleSink 0 3) (sampleStream 4)
      100 (List.range 100) (sampleSink_wellBehaved 0 3) (by decide) (by decide)).2.2.1
      (by decide)).1⟩

/-- C15, the claim as stated fails: for 2^63 + 5 bytes, chunk limit 2^62 and a sink that
accepts every byte offered, the call returns the negative value -9223372036854775803; there
is a buffer of that many bytes, and for it the accepted ranges hold 2^63 + 5 bytes whereas the
initial segment of the length of the return value is empty. -/
theorem SpdifStreamOut.writeDataBurst_segment_longer_than_return :
    acceptingSink.WellBehaved ∧
    (SpdifStreamOut.writeDataBurst acceptingSink (sampleStream 4611686018427387904)
      9223372036854775813).1 = -9223372036854775803 ∧
    ∃ buffer : List Nat, 9223372036854775813 ≤ buffer.length ∧
      (acceptedBytes buffer (SpdifStreamOut.eventsSince (sampleStream 4611686018427387904)
        (SpdifStreamOut.writeDataBurst acceptingSink (sampleStream 4611686018427387904)
          9223372036854775813).2)).length = 9223372036854775813 ∧
      (buffer.take (SpdifStreamOut.writeDataBurst acceptingSink
        (sampleStream 4611686018427387904) 9223372036854775813).1.toNat).length = 0 := by
  have hret : (SpdifStreamOut.writeDataBurst acceptingSink (sampleStream 4611686018427387904)
      9223372036854775813).1 = -9223372036854775803 := by decide
  have hev : SpdifStreamOut.eventsSince (sampleStream 4611686018427387904)
      (SpdifStreamOut.writeDataBurst acceptingSink (sampleStream 4611686018427387904)
        9223372036854775813).2 =
      [Event.sinkWrite 0 4611686018427387904 4611686018427387904,
        Event.sinkWrite 4611686018427387904 4611686018427387904 4611686018427387904,
        Event.sinkWrite 9223372036854775808 5 5] := by decide
  have h1 : (4611686018427387904 : Int).toNat = 4611686018427387904 := by decide
  have h2 : (5 : Int).toNat = 5 := by decide
  have h3 : (-9223372036854775803 : Int).toNat = 0 := by decide
  have hall : ∀ buffer : List Nat, 9223372036854775813 ≤ buffer.length →
      (acceptedBytes buffer (SpdifStreamOut.eventsSince (sampleStream 4611686018427387904)
        (SpdifStreamOut.writeDataBurst acceptingSink (sampleStream 4611686018427387904)
          9223372036854775813).2)).length = 9223372036854775813 ∧
      (buffer.take (SpdifStreamOut.writeDataBurst acceptingSink
        (sampleStream 4611686018427387904) 9223372036854775813).1.toNat).length = 0 := by
    intro buffer hlen
    constructor
    · rw [hev]
      simp only [acceptedBytes, h1, h2, List.length_append, List.length_take,
        List.length_drop, List.length_nil]
      omega
    · rw [hret, h3]
      rfl
  have hle : 9223372036854775813 ≤ (List.replicate 9223372036854775813 (0 : Nat)).length :=
    le_of_eq (List.length_replicate 9223372036854775813 (0 : Nat)).symm
  exact ⟨acceptingSink_acceptsAll.wellBehaved, hret, _, hle, hall _ hle⟩

/-- C16, as amended: for every buffer length `bytes` (any `size_t`) and chunk limit L, with a
sink that always accepts every byte offered the bytes accepted in one call of `writeDataBurst`
total the minimum of `bytes` and 10 x L, so the burst is delivered completely in one call if
and only if `bytes` is at most 10 x L; the call returns that minimum whenever it is at most
SSIZE_MAX, in particular whenever `bytes` is at most SSIZE_MAX; and for any sink that accepts
between 0 and the offered count neither the accepted total nor the return value exceeds
10 x L. -/
theorem SpdifStreamOut.writeDataBurst_ten_chunks {σ ε : Type} (sink : AudioStreamOut σ)
    (self : SpdifStreamOut σ ε) (bytes : Nat) (hb : bytes < SIZE_MOD) :
    (sink.AcceptsAll →
      acceptedSum (SpdifStreamOut.eventsSince self
          (SpdifStreamOut.writeDataBurst sink self bytes).2) =
        ((min bytes (10 * self.mHalBufferSize) : Nat) : Int) ∧
      (acceptedSum (SpdifStreamOut.eventsSince self
          (SpdifStreamOut.writeDataBurst sink self bytes).2) = (bytes : Int) ↔
        bytes ≤ 10 * self.mHalBufferSize) ∧
      (min bytes (10 * self.mHalBufferSize) ≤ SSIZE_MAX →
        (SpdifStreamOut.writeDataBurst sink self bytes).1 =
          ((min bytes (10 * self.mHalBufferSize) : Nat) : Int) ∧
        ((SpdifStreamOut.writeDataBurst sink self bytes).1 = (bytes : Int) ↔
          bytes ≤ 10 * self.mHalBufferSize)) ∧
      (bytes ≤ SSIZE_MAX →
        (SpdifStreamOut.writeDataBurst sink self bytes).1 =
          ((min bytes (10 * self.mHalBufferSize) : Nat) : Int) ∧
        ((SpdifStreamOut.writeDataBurst sink self bytes).1 = (bytes : Int) ↔
          bytes ≤ 10 * self.mHalBufferSize))) ∧
    (sink.WellBehaved →
      acceptedSum (SpdifStreamOut.eventsSince self
          (SpdifStreamOut.writeDataBurst sink self bytes).2) ≤
        ((10 * self.mHalBufferSize : Nat) : Int) ∧
      (SpdifStreamOut.writeDataBurst sink self bytes).1 ≤
        ((10 * self.mHalBufferSize : Nat) : Int)) := by
  constructor
  · intro ha
    obtain ⟨total, hret, hsum, _, htot⟩ :=
      SpdifStreamOut.writeDataBurst_sum sink ha.wellBehaved self bytes hb
    have hloop := SpdifStreamOut.writeDataBurstLoop_acceptsAll sink ha 10
      ({ self := self, totalBytes := 0, leftBytes := bytes } : BurstLoop σ ε)
      (by simp only [Nat.zero_add]; exact hb)
    simp only [Nat.zero_add] at hloop
    have e10 : max 10 1 = 10 := by decide
    rw [e10, ← htot] at hloop
    rw [← hsum, hret, hloop]
    have key : min bytes (10 * self.mHalBufferSize) ≤ SSIZE_MAX →
        toSsize (min bytes (10 * self.mHalBufferSize)) =
          ((min bytes (10 * self.mHalBufferSize) : Nat) : Int) ∧
        (toSsize (min bytes (10 * self.mHalBufferSize)) = (bytes : Int) ↔
          bytes ≤ 10 * self.mHalBufferSize) := by
      intro h
      rw [toSsize_of_le _ h]
      refine ⟨rfl, ?_⟩
      omega
    refine ⟨rfl, by omega, key, fun h => key (by omega)⟩
  · intro hw
    obtain ⟨htr, hlen, total, left, hret, hsum, hinv, _⟩ :=
      SpdifStreamOut.writeDataBurst_trace sink hw self bytes hb
    obtain ⟨_, hle⟩ := burstTrace_sum_le _ _ _ _ htr
    have hten : acceptedSum (SpdifStreamOut.eventsSince self
        (SpdifStreamOut.writeDataBurst sink self bytes).2) ≤
        ((10 * self.mHalBufferSize : Nat) : Int) := by
      refine le_trans hle ?_
      have : (SpdifStreamOut.eventsSince self
          (SpdifStreamOut.writeDataBurst sink self bytes).2).length * self.mHalBufferSize ≤
          10 * self.mHalBufferSize := Nat.mul_le_mul_right _ hlen
      exact_mod_cast this
    refine ⟨hten, ?_⟩
    rw [hret]
    exact le_trans (toSsize_le_self total) (by rw [hsum]; exact hten)

/-- C16 at concrete inputs: chunk limit 4 and a sink that accepts everything: 100 bytes give
40, and 30 bytes are delivered completely. -/
theorem SpdifStreamOut.writeDataBurst_ten_chunks_witness :
    100 < SIZE_MOD ∧ acceptingSink.AcceptsAll ∧
    (SpdifStreamOut.writeDataBurst acceptingSink (sampleStream 4) 100).1 =
      ((min 100 (10 * (sampleStream 4).mHalBufferSize) : Nat) : Int) ∧
    (SpdifStreamOut.writeDataBurst acceptingSink (sampleStream 4) 100).1 = 40 ∧
    (SpdifStreamOut.writeDataBurst acceptingSink (sampleStream 4) 30).1 = 30 :=
  ⟨by decide, acceptingSink_acceptsAll,
   (((SpdifStreamOut.writeDataBurst_ten_chunks acceptingSink (sampleStream 4) 100
      (by decide)).1 acceptingSink_acceptsAll).2.2.1 (by decide)).1,
   by decide, by decide⟩

/-- C16, the claim as stated fails: for a buffer of 2^63 + 5 bytes, chunk limit 2^62 and a
sink that accepts every byte offered, the minimum of the length and 10 x 2^62 is 2^63 + 5, and
the call returns -9223372036854775803. -/
theorem SpdifStreamOut.writeDataBurst_return_not_min :
    acceptingSink.AcceptsAll ∧
    min 9223372036854775813 (10 * (sampleStream 4611686018427387904).mHalBufferSize) =
      9223372036854775813 ∧
    (SpdifStreamOut.writeDataBurst acceptingSink (sampleStream 4611686018427387904)
      9223372036854775813).1 = -9223372036854775803 ∧
    (SpdifStreamOut.writeDataBurst acceptingSink (sampleStream 4611686018427387904)
      9223372036854775813).1 ≠
      ((min 9223372036854775813
        (10 * (sampleStream 4611686018427387904).mHalBufferSize) : Nat) : Int) :=
  ⟨acceptingSink_acceptsAll, by decide, by decide, by decide⟩

end android
